import Mathlib

set_option maxHeartbeats 2000000

/-!
Shallow embedding of the routing node's message-processing engine
(`src/routing_node.rs`) of the maveric/routing repository.

Machine integers are modelled as `Nat` (message ids are 32-bit counters;
arithmetic is taken modulo `2 ^ 32` where the source uses `u32`).  512-bit
node names and transport endpoints are modelled as `Nat` (only equality and
XOR are used).  External collaborators (the routing table, the connection
manager, the application interface, the message-header helper methods that
live outside `src/`) are modelled abstractly; each definition taken from the
specification rather than from a source file carries a doc comment starting
with `Modelled from the spec:`.  Calls into external collaborators
(connection-manager sends, routing-table mutations, application-interface
callbacks) are recorded as events in an append-only trace.
-/

namespace Routing

abbrev NameType := Nat
abbrev Endpoint := Nat
abbrev Bytes := List Nat
abbrev ResponseErrorT := Nat

/-- The authority roles (`types::Authority`). -/
inductive Authority where
  | Client
  | ClientManager
  | NaeManager
  | NodeManager
  | ManagedNode
  | Unknown
deriving DecidableEq

/-- `types::SourceAddress`. -/
structure SourceAddress where
  from_node : NameType
  from_group : Option NameType
  reply_to : Option NameType
deriving DecidableEq

/-- `types::DestinationAddress`. -/
structure DestinationAddress where
  dest : NameType
  reply_to : Option NameType
deriving DecidableEq

/-- `message_header::MessageHeader` (fields only; the helper methods are
modelled below). -/
structure MessageHeader where
  message_id : Nat
  destination : DestinationAddress
  source : SourceAddress
  authority : Authority
deriving DecidableEq

/-- Modelled from the spec: `message_header.rs` is not under `src/`; spec section 3
defines the derived view `is_from_group` as `from_group.is_some()`. -/
def isFromGroup (h : MessageHeader) : Bool :=
  h.source.from_group.isSome

/-- Modelled from the spec: `message_header.rs` is not under `src/`;
`from_node()` exposes the source's `from_node` field. -/
def fromNode (h : MessageHeader) : NameType :=
  h.source.from_node

/-- Modelled from the spec: `message_header.rs` is not under `src/`;
`from_group()` exposes the source's optional `from_group` field. -/
def fromGroup (h : MessageHeader) : Option NameType :=
  h.source.from_group

/-- Modelled from the spec: `message_header.rs` is not under `src/`; spec section 3
defines `from()` as `source.reply_to or source.from_node`. -/
def headerFrom (h : MessageHeader) : NameType :=
  match h.source.reply_to with
  | some r => r
  | none => h.source.from_node

/-- Modelled from the spec: `message_header.rs` is not under `src/`; spec section 3
defines `from_authority()` as the header's authority. -/
def fromAuthority (h : MessageHeader) : Authority :=
  h.authority

/-- Modelled from the spec: `message_header.rs` is not under `src/`; spec section 3
defines `send_to()` as "destination or (if reply_to set) relay-aware response
address"; in both cases the target name is `destination.dest`. -/
def sendTo (h : MessageHeader) : DestinationAddress :=
  match h.source.reply_to with
  | some r => { dest := h.destination.dest, reply_to := some r }
  | none => h.destination

/-- Modelled from the spec: `message_header.rs` is not under `src/`; the
"header's reply_to" consulted by the PutData reply path is the source's
`reply_to` (the relayed client's name). -/
def headerReplyTo (h : MessageHeader) : Option NameType :=
  h.source.reply_to

/-- Modelled from the spec: `message_header.rs` is not under `src/`; spec section 3:
`create_reply()` swaps source and destination and adopts the local authority.
No claim inspects the produced fields beyond the pipeline structure. -/
def createReply (h : MessageHeader) (own_id : NameType) (auth : Authority) : MessageHeader :=
  { message_id := h.message_id
    destination := { dest := headerFrom h, reply_to := h.source.reply_to }
    source := { from_node := own_id, from_group := none, reply_to := h.destination.reply_to }
    authority := auth }

/-- Modelled from the spec: `message_header.rs` is not under `src/`; spec section 3:
`create_send_on()` rewrites the source to (self, our_authority,
original_reply_to) and retargets the destination. -/
def createSendOn (h : MessageHeader) (own_id : NameType) (auth : Authority)
    (dest : NameType) : MessageHeader :=
  { message_id := h.message_id
    destination := { dest := dest, reply_to := h.destination.reply_to }
    source := { from_node := own_id, from_group := none, reply_to := h.source.reply_to }
    authority := auth }

/-- Modelled from the spec: the message fingerprint (`header.get_filter()` in
`message_header.rs`, not under `src/`) is a tuple derived from the header that
identifies a single logical message (source identity, destination,
message id; spec section 3 `MessageFingerprint`). -/
def getFilter (h : MessageHeader) : SourceAddress × DestinationAddress × Nat :=
  (h.source, h.destination, h.message_id)

abbrev FilterType := SourceAddress × DestinationAddress × Nat

/-- `types::NameAndTypeId`. -/
structure NameAndTypeId where
  name : NameType
  type_id : Nat
deriving DecidableEq

/-- `Result<Vec<u8>, ResponseError>` payload of data responses. -/
inductive DataResult where
  | ok (data : Bytes)
  | err (e : ResponseErrorT)
deriving DecidableEq

structure GetData where
  requester : SourceAddress
  name_and_type_id : NameAndTypeId
deriving DecidableEq

structure GetDataResponse where
  name_and_type_id : NameAndTypeId
  data : DataResult
deriving DecidableEq

structure PutData where
  name : NameType
  data : Bytes
deriving DecidableEq

structure PutDataResponse where
  name : NameType
  data : DataResult
deriving DecidableEq

/-- `types::PublicPmid`: the publishable half of an identity (public sign key
modelled as a single `Nat`, plus the derived name). -/
structure PublicPmid where
  name : NameType
  public_sign_key : Nat
deriving DecidableEq

structure PutPublicPmid where
  public_pmid : PublicPmid
deriving DecidableEq

structure ConnectRequest where
  local_endpoints : List Endpoint
  external_endpoints : List Endpoint
  requester_id : NameType
  receiver_id : NameType
  requester_fob : PublicPmid
deriving DecidableEq

structure ConnectResponse where
  requester_local_endpoints : List Endpoint
  requester_external_endpoints : List Endpoint
  receiver_local_endpoints : List Endpoint
  receiver_external_endpoints : List Endpoint
  requester_id : NameType
  receiver_id : NameType
  receiver_fob : PublicPmid
deriving DecidableEq

structure FindGroup where
  requester_id : NameType
  target_id : NameType
deriving DecidableEq

structure FindGroupResponse where
  group : List PublicPmid
deriving DecidableEq

structure GetGroupKey where
  target_id : NameType
deriving DecidableEq

structure GetGroupKeyResponse where
  public_sign_keys : List (NameType × Nat)
deriving DecidableEq

structure GetKey where
  target_id : NameType
deriving DecidableEq

structure GetKeyResponse where
  address : NameType
  public_sign_key : Nat
deriving DecidableEq

structure PostMsg where
  name : NameType
  data : Bytes
deriving DecidableEq

structure BootstrapIdRequest where
  sender_id : NameType
deriving DecidableEq

structure BootstrapIdResponse where
  sender_id : NameType
deriving DecidableEq

/-- A serialised message body.  The source carries CBOR bytes and decodes them
per message type with `decode::<T>`; here a body either is the encoding of one
payload type (decoding to anything else fails) or unparseable garbage. -/
inductive Body where
  | getData (g : GetData)
  | getDataResponse (g : GetDataResponse)
  | putData (p : PutData)
  | putDataResponse (p : PutDataResponse)
  | connectRequest (c : ConnectRequest)
  | connectResponse (c : ConnectResponse)
  | findGroup (f : FindGroup)
  | findGroupResponse (f : FindGroupResponse)
  | getGroupKey (g : GetGroupKey)
  | getGroupKeyResponse (g : GetGroupKeyResponse)
  | getKey (g : GetKey)
  | getKeyResponse (g : GetKeyResponse)
  | post (p : PostMsg)
  | putPublicPmid (p : PutPublicPmid)
  | bootstrapIdRequest (b : BootstrapIdRequest)
  | bootstrapIdResponse (b : BootstrapIdResponse)
  | rawBytes (raw : Nat)
deriving DecidableEq

/-- `messages::MessageTypeTag`. -/
inductive MessageTypeTag where
  | BootstrapIdRequest
  | BootstrapIdResponse
  | ConnectRequest
  | ConnectResponse
  | ConnectSuccess
  | FindGroup
  | FindGroupResponse
  | GetData
  | GetDataResponse
  | GetGroupKey
  | GetGroupKeyResponse
  | GetKey
  | GetKeyResponse
  | Post
  | PostResponse
  | PutData
  | PutDataResponse
  | PutPublicPmid
  | UnauthorisedPut
deriving DecidableEq

/-- `messages::RoutingMessage`.  The signature over the body is produced and
checked by the external messages layer and never inspected by the code under
`src/`, so it is omitted. -/
structure RoutingMessage where
  message_type : MessageTypeTag
  message_header : MessageHeader
  serialised_body : Body
deriving DecidableEq

/-- `error::InterfaceError`. -/
inductive InterfaceError where
  | Abort
  | Response (e : ResponseErrorT)
deriving DecidableEq

/-- `error::RoutingError`.  `CborDecodeError` stands for the `CborError`
wrapper, `IoErr` for the transport `io::Error` wrapper. -/
inductive RoutingError where
  | FailedToBootstrap
  | FilterCheckFailed
  | UnknownMessageType
  | AlreadyConnected
  | BadAuthority
  | Other
  | CborDecodeError
  | InterfaceErr (e : InterfaceError)
  | IoErr
deriving DecidableEq

/-- `node_interface::Action`. -/
inductive Action where
  | Reply (data : Bytes)
  | SendOn (nodes : List NameType)
deriving DecidableEq

def decodeGetData : Body → Except RoutingError GetData
  | .getData g => .ok g
  | _ => .error .CborDecodeError

def decodeGetDataResponse : Body → Except RoutingError GetDataResponse
  | .getDataResponse g => .ok g
  | _ => .error .CborDecodeError

def decodePutData : Body → Except RoutingError PutData
  | .putData p => .ok p
  | _ => .error .CborDecodeError

def decodePutDataResponse : Body → Except RoutingError PutDataResponse
  | .putDataResponse p => .ok p
  | _ => .error .CborDecodeError

def decodeConnectRequest : Body → Except RoutingError ConnectRequest
  | .connectRequest c => .ok c
  | _ => .error .CborDecodeError

def decodeConnectResponse : Body → Except RoutingError ConnectResponse
  | .connectResponse c => .ok c
  | _ => .error .CborDecodeError

def decodeFindGroup : Body → Except RoutingError FindGroup
  | .findGroup f => .ok f
  | _ => .error .CborDecodeError

def decodeFindGroupResponse : Body → Except RoutingError FindGroupResponse
  | .findGroupResponse f => .ok f
  | _ => .error .CborDecodeError

def decodeGetGroupKey : Body → Except RoutingError GetGroupKey
  | .getGroupKey g => .ok g
  | _ => .error .CborDecodeError

def decodeGetKey : Body → Except RoutingError GetKey
  | .getKey g => .ok g
  | _ => .error .CborDecodeError

def decodePostMsg : Body → Except RoutingError PostMsg
  | .post p => .ok p
  | _ => .error .CborDecodeError

def decodePutPublicPmid : Body → Except RoutingError PutPublicPmid
  | .putPublicPmid p => .ok p
  | _ => .error .CborDecodeError

def decodeBootstrapIdRequest : Body → Except RoutingError BootstrapIdRequest
  | .bootstrapIdRequest b => .ok b
  | _ => .error .CborDecodeError

def decodeBootstrapIdResponse : Body → Except RoutingError BootstrapIdResponse
  | .bootstrapIdResponse b => .ok b
  | _ => .error .CborDecodeError

/-- CBOR decoding of a `types::PublicSignKey` out of interface reply bytes
(used by `handle_get_key`); modelled by the convention that a singleton byte
list encodes the key. -/
def decodePublicSignKeyBytes : Bytes → Except RoutingError Nat
  | [k] => .ok k
  | _ => .error .CborDecodeError

/-- The application interface (external collaborator), modelled as an oracle
of pure callbacks.  `handle_get_response`, `handle_put_response` and
`handle_churn` return values the dispatcher ignores on every path under
`src/`, so those callbacks are recorded purely as trace events. -/
structure Interface where
  handle_get : Nat → NameType → Authority → Authority → NameType → Except InterfaceError Action
  handle_get_key : Nat → NameType → Authority → Authority → NameType → Except InterfaceError Action
  handle_put : Authority → Authority → NameType → DestinationAddress → Bytes → Except InterfaceError Action
  handle_post : Authority → Authority → NameType → NameType → Bytes → Except InterfaceError Action
  handle_cache_get : Nat → NameType → Authority → NameType → Except InterfaceError Action
  handle_cache_put : Authority → NameType → Bytes → Except InterfaceError Action

/-- `routing_table::NodeInfo`: a peer's published identity plus candidate and
connected endpoints. -/
structure NodeInfo where
  fob : PublicPmid
  endpoints : List Endpoint
  connected_endpoint : Option Endpoint
deriving DecidableEq

def NodeInfo.id (ni : NodeInfo) : NameType := ni.fob.name

/-- The routing table (external collaborator), modelled by the observations
the code under `src/` makes of it: its size, the group size parameter, the
ordered close group (`our_close_group()`, furthest member last), the
close-group-range membership predicate
(`address_in_our_close_group_range`), the `add_node` acceptance decision and
the `check_node` query.  Mutations of the table are recorded as trace
events. -/
structure RoutingTableModel where
  size : Nat
  group_size : Nat
  closeGroup : List NodeInfo
  inRange : NameType → Bool
  addNodeResult : NodeInfo → Bool
  checkNode : NameType → Bool

/-- Modelled from the spec: `name_type.rs` is not under `src/`;
`closer_to_target(a, b, pivot)` holds when `a` is XOR-closer to `pivot`
than `b` is. -/
def closer_to_target (a b pivot : NameType) : Bool :=
  Nat.xor a pivot < Nat.xor b pivot

/-- One observable effect: a send handed to the connection manager, a
routing-table mutation, or an application-interface callback. -/
inductive Event where
  | swarmSend (target : NameType) (msg : RoutingMessage)
  | directSend (ep : Endpoint) (msg : RoutingMessage)
  | connectTo (eps : List Endpoint)
  | rtAddNode (ni : NodeInfo)
  | rtDropNode (peer : NameType)
  | callGet (type_id : Nat) (name : NameType) (our : Authority) (from_auth : Authority) (from_addr : NameType)
  | callGetKey (type_id : Nat) (name : NameType) (our : Authority) (from_auth : Authority) (from_addr : NameType)
  | callPut (our : Authority) (from_auth : Authority) (from_addr : NameType) (dest_addr : DestinationAddress) (data : Bytes)
  | callPost (our : Authority) (from_auth : Authority) (from_addr : NameType) (name : NameType) (data : Bytes)
  | callGetResponse (from_addr : NameType) (result : DataResult)
  | callPutResponse (from_auth : Authority) (from_addr : NameType) (result : DataResult)
  | callCacheGet (type_id : Nat) (name : NameType) (from_auth : Authority) (from_addr : NameType)
  | callCachePut (from_auth : Authority) (from_addr : NameType) (data : Bytes)
deriving DecidableEq

/-- The routing node state (`RoutingNode` fields observed by the embedded
code).  `conn_fwd`/`conn_rev` are the two halves of `all_connections`
(endpoint to name, name to endpoint), modelled as key-unique association
lists. -/
structure Node where
  own_id : NameType
  public_sign_key : Nat
  next_message_id : Nat
  filter : List FilterType
  public_pmid_cache : List (NameType × PublicPmid)
  conn_fwd : List (Endpoint × NameType)
  conn_rev : List (NameType × Endpoint)
  accepting_on : List Endpoint
  bootstrap_endpoint : Option Endpoint
  bootstrap_node_id : Option NameType
  routing_table : RoutingTableModel
  interface : Interface

abbrev HandlerResult := Except RoutingError Unit × Node × List Event

/-- Lookup in an association list (first binding wins, as for the source's
`HashMap`/`BTreeMap` with unique keys). -/
def mapLookup (k : Nat) (m : List (Nat × Nat)) : Option Nat :=
  (m.find? (fun p => p.1 == k)).map Prod.snd

/-- Remove a key from an association list (`HashMap::remove`). -/
def mapRemove (k : Nat) (m : List (Nat × Nat)) : List (Nat × Nat) :=
  m.filter (fun p => !(p.1 == k))

/-- Insert (overwriting) into an association list (`HashMap::insert`). -/
def mapInsert (k v : Nat) (m : List (Nat × Nat)) : List (Nat × Nat) :=
  (k, v) :: mapRemove k m

/-- LRU-cache insert (`LruCache::add`); keyed association list, expiry not
modelled. -/
def cacheInsert (k : NameType) (v : PublicPmid) (m : List (NameType × PublicPmid)) :
    List (NameType × PublicPmid) :=
  (k, v) :: m.filter (fun p => !(p.1 == k))

/-- `get_next_message_id` (src lines 992-996): returns the current counter and
post-increments it; the counter is a `u32`, so the increment wraps modulo
`2 ^ 32`. -/
def get_next_message_id (n : Node) : Nat × Node :=
  (n.next_message_id, { n with next_message_id := (n.next_message_id + 1) % 2 ^ 32 })

/-- `our_source_address` (src lines 840-852). -/
def our_source_address (n : Node) : SourceAddress :=
  match n.bootstrap_endpoint with
  | some ep =>
    match mapLookup ep n.conn_fwd with
    | some id => { from_node := id, from_group := none, reply_to := some n.own_id }
    | none => { from_node := n.own_id, from_group := none, reply_to := none }
  | none => { from_node := n.own_id, from_group := none, reply_to := none }

/-- `our_group_address` (src lines 862-865). -/
def our_group_address (n : Node) (group_id : NameType) : SourceAddress :=
  { from_node := n.own_id, from_group := some group_id, reply_to := none }

/-- `address_in_close_group_range` (src lines 1029-1036): accepts every
address while the routing table has fewer than group-size entries; otherwise
compares against the furthest close-group member (`our_close_group().pop()`
returns the last element; the source unwraps it, the table guaranteeing a
non-empty close group once it holds at least group-size entries — the
impossible empty case is mapped to `true`). -/
def address_in_close_group_range (rt : RoutingTableModel) (own_id : NameType)
    (address : NameType) : Bool :=
  if rt.size < rt.group_size then true
  else
    match rt.closeGroup.getLast? with
    | some last => closer_to_target address last.id own_id
    | none => true

/-- `our_authority` (src lines 484-502): the authority-resolution cascade,
evaluated top to bottom with the first match winning. -/
def our_authority (rt : RoutingTableModel) (own_id : NameType) (element : NameType)
    (header : MessageHeader) : Authority :=
  if !(isFromGroup header) && rt.inRange (fromNode header)
      && header.destination.dest != element then
    .ClientManager
  else if rt.inRange element && header.destination.dest == element then
    .NaeManager
  else if isFromGroup header && rt.inRange header.destination.dest
      && header.destination.dest != own_id then
    .NodeManager
  else if ((fromGroup header).map rt.inRange).getD false
      && header.destination.dest == own_id then
    .ManagedNode
  else
    .Unknown

/-- The authority table exactly as the claim states it (conditions (a)-(e) in
the claim's wording), used to check the source resolver against the claim. -/
def our_authority_claim (rt : RoutingTableModel) (own_id : NameType) (element : NameType)
    (header : MessageHeader) : Authority :=
  if isFromGroup header = false ∧ rt.inRange (fromNode header) = true
      ∧ header.destination.dest ≠ element then
    .ClientManager
  else if rt.inRange element = true ∧ header.destination.dest = element then
    .NaeManager
  else if isFromGroup header = true ∧ rt.inRange header.destination.dest = true
      ∧ header.destination.dest ≠ own_id then
    .NodeManager
  else if (∃ g, fromGroup header = some g ∧ rt.inRange g = true)
      ∧ header.destination.dest = own_id then
    .ManagedNode
  else
    .Unknown

/-- `construct_get_data_response_msg` (src lines 980-990). -/
def construct_get_data_response_msg (n : Node) (original_header : MessageHeader)
    (get_data : GetData) (data : Bytes) : RoutingMessage × Node :=
  let (mid, n2) := get_next_message_id n
  let header : MessageHeader :=
    { message_id := mid
      destination := sendTo original_header
      source := our_source_address n2
      authority := .ManagedNode }
  ({ message_type := .GetDataResponse
     message_header := header
     serialised_body := .getDataResponse
       { name_and_type_id := get_data.name_and_type_id, data := .ok data } }, n2)

/-- `handle_get_data` (src lines 661-698). -/
def handle_get_data (n : Node) (header : MessageHeader) (body : Body) : HandlerResult :=
  match decodeGetData body with
  | .error e => (.error e, n, [])
  | .ok gd =>
    let typeId := gd.name_and_type_id.type_id
    let name := gd.name_and_type_id.name
    let our := our_authority n.routing_table n.own_id name header
    let fromAuth := fromAuthority header
    let fr := headerFrom header
    let callEv := Event.callGet typeId name our fromAuth fr
    match n.interface.handle_get typeId name our fromAuth fr with
    | .ok (.Reply data) =>
      let reply : RoutingMessage :=
        { message_type := .GetDataResponse
          message_header := createReply header n.own_id our
          serialised_body := .getDataResponse
            { name_and_type_id := gd.name_and_type_id, data := .ok data } }
      (.ok (), n, [callEv, .swarmSend (sendTo header).dest reply])
    | .ok (.SendOn dests) =>
      (.ok (), n, callEv :: dests.map (fun d =>
        Event.swarmSend d
          { message_type := .GetData
            message_header := createSendOn header n.own_id our d
            serialised_body := .getData gd }))
    | .error .Abort => (.ok (), n, [callEv])
    | .error (.Response err) =>
      let reply : RoutingMessage :=
        { message_type := .GetDataResponse
          message_header := createReply header n.own_id our
          serialised_body := .getDataResponse
            { name_and_type_id := gd.name_and_type_id, data := .err err } }
      (.ok (), n, [callEv, .swarmSend (sendTo header).dest reply])

/-- `handle_get_key` (src lines 700-732). -/
def handle_get_key (n : Node) (header : MessageHeader) (body : Body) : HandlerResult :=
  match decodeGetKey body with
  | .error e => (.error e, n, [])
  | .ok gk =>
    let typeId := 106
    let our := our_authority n.routing_table n.own_id gk.target_id header
    let fromAuth := fromAuthority header
    let fr := headerFrom header
    let callEv := Event.callGetKey typeId gk.target_id our fromAuth fr
    match n.interface.handle_get_key typeId gk.target_id our fromAuth fr with
    | .error ie => (.error (.InterfaceErr ie), n, [callEv])
    | .ok (.Reply data) =>
      match decodePublicSignKeyBytes data with
      | .error e => (.error e, n, [callEv])
      | .ok key =>
        let reply : RoutingMessage :=
          { message_type := .GetKeyResponse
            message_header := createReply header n.own_id our
            serialised_body := .getKeyResponse
              { address := gk.target_id, public_sign_key := key } }
        (.ok (), n, [callEv, .swarmSend (sendTo header).dest reply])
    | .ok (.SendOn dests) =>
      (.ok (), n, callEv :: dests.map (fun d =>
        Event.swarmSend d
          { message_type := .GetKey
            message_header := createSendOn header n.own_id our d
            serialised_body := .getKey gk }))

/-- `handle_get_group_key` (src lines 506-523). -/
def handle_get_group_key (n : Node) (header : MessageHeader) (body : Body) : HandlerResult :=
  match decodeGetGroupKey body with
  | .error e => (.error e, n, [])
  | .ok ggk =>
    let groupKeys :=
      n.routing_table.closeGroup.map (fun ni => (ni.fob.name, ni.fob.public_sign_key))
        ++ [(n.own_id, n.public_sign_key)]
    let respHeader : MessageHeader :=
      { message_id := header.message_id
        destination := sendTo header
        source := our_group_address n ggk.target_id
        authority := .NaeManager }
    let resp : RoutingMessage :=
      { message_type := .GetGroupKeyResponse
        message_header := respHeader
        serialised_body := .getGroupKeyResponse { public_sign_keys := groupKeys } }
    match fromGroup header with
    | some g => (.ok (), n, [.swarmSend g resp])
    | none => (.ok (), n, [])

/-- The `NodeInfo::new(requester_fob, local ++ external, None)` built by
`handle_connect_request`. -/
def nodeInfoOfConnectRequest (cq : ConnectRequest) : NodeInfo :=
  { fob := cq.requester_fob, endpoints := cq.local_endpoints ++ cq.external_endpoints, connected_endpoint := none }

/-- The `NodeInfo::new(receiver_fob, local ++ external, None)` built by
`handle_connect_response`. -/
def nodeInfoOfConnectResponse (cr : ConnectResponse) : NodeInfo :=
  { fob := cr.receiver_fob, endpoints := cr.receiver_local_endpoints ++ cr.receiver_external_endpoints, connected_endpoint := none }

/-- `handle_connect_request` (src lines 525-567). -/
def handle_connect_request (n : Node) (header : MessageHeader) (body : Body) : HandlerResult :=
  match decodeConnectRequest body with
  | .error e => (.error e, n, [])
  | .ok cr =>
    let ni : NodeInfo := nodeInfoOfConnectRequest cr
    let added := n.routing_table.addNodeResult ni
    if !added then (.error .AlreadyConnected, n, [.rtAddNode ni])
    else
      let evts := [Event.rtAddNode ni, .connectTo cr.local_endpoints, .connectTo cr.external_endpoints]
      let (mid, n2) := get_next_message_id n
      let respHeader : MessageHeader :=
        { message_id := mid
          destination := sendTo header
          source := our_source_address n2
          authority := .ManagedNode }
      let resp : RoutingMessage :=
        { message_type := .ConnectResponse
          message_header := respHeader
          serialised_body := .connectResponse
            { requester_local_endpoints := cr.local_endpoints
              requester_external_endpoints := cr.external_endpoints
              receiver_local_endpoints := n2.accepting_on
              receiver_external_endpoints := []
              requester_id := cr.requester_id
              receiver_id := n2.own_id
              receiver_fob := { name := n2.own_id, public_sign_key := n2.public_sign_key } } }
      let evts := evts ++ [Event.swarmSend cr.requester_id resp]
      let evts := evts ++ (match n2.bootstrap_endpoint with
        | some ep => [Event.directSend ep resp]
        | none => [])
      match header.source.reply_to with
      | some rta =>
        match mapLookup rta n2.conn_rev with
        | some replyEp => (.ok (), n2, evts ++ [.directSend replyEp resp])
        | none => (.error .Other, n2, evts)
      | none => (.ok (), n2, evts)

/-- `handle_connect_response` (src lines 569-600). -/
def handle_connect_response (n : Node) (body : Body) : HandlerResult :=
  match decodeConnectResponse body with
  | .error e => (.error e, n, [])
  | .ok cr =>
    let ni : NodeInfo := nodeInfoOfConnectResponse cr
    let added := n.routing_table.addNodeResult ni
    if !added then (.ok (), n, [.rtAddNode ni])
    else
      (.ok (), n, [.rtAddNode ni, .connectTo cr.receiver_local_endpoints,
                   .connectTo cr.receiver_external_endpoints])

/-- `handle_find_group` (src lines 602-631). -/
def handle_find_group (n : Node) (header : MessageHeader) (body : Body) : HandlerResult :=
  match decodeFindGroup body with
  | .error e => (.error e, n, [])
  | .ok fg =>
    let group := n.routing_table.closeGroup.map (fun ni => ni.fob)
      ++ [{ name := n.own_id, public_sign_key := n.public_sign_key : PublicPmid }]
    let (mid, n2) := get_next_message_id n
    let respHeader : MessageHeader :=
      { message_id := mid
        destination := sendTo header
        source := our_group_address n2 fg.target_id
        authority := .NaeManager }
    let resp : RoutingMessage :=
      { message_type := .FindGroupResponse
        message_header := respHeader
        serialised_body := .findGroupResponse { group := group } }
    let evts := [Event.swarmSend (sendTo header).dest resp]
    match header.source.reply_to with
    | some rta =>
      match mapLookup rta n2.conn_rev with
      | some ep => (.ok (), n2, evts ++ [.directSend ep resp])
      | none => (.error .Other, n2, evts)
    | none => (.ok (), n2, evts)

/-- `check_and_send_connect_request_msg` (src lines 643-659), in
accumulator-passing form for the loop in `handle_find_group_response`. -/
def check_and_send_connect_request (acc : Node × List Event) (peer_id : NameType) :
    Node × List Event :=
  let (n, evts) := acc
  if !(n.routing_table.checkNode peer_id) then (n, evts)
  else
    let (mid, n2) := get_next_message_id n
    let reqHeader : MessageHeader :=
      { message_id := mid
        destination := { dest := peer_id, reply_to := none }
        source := our_source_address n2
        authority := .ManagedNode }
    let reqMsg : RoutingMessage :=
      { message_type := .ConnectRequest
        message_header := reqHeader
        serialised_body := .connectRequest
          { local_endpoints := n2.accepting_on
            external_endpoints := []
            requester_id := n2.own_id
            receiver_id := peer_id
            requester_fob := { name := n2.own_id, public_sign_key := n2.public_sign_key } } }
    let evts := evts ++ [Event.swarmSend peer_id reqMsg]
    let evts := evts ++ (match n2.bootstrap_endpoint with
      | some ep => [Event.directSend ep reqMsg]
      | none => [])
    (n2, evts)

/-- `handle_find_group_response` (src lines 633-640). -/
def handle_find_group_response (n : Node) (body : Body) : HandlerResult :=
  match decodeFindGroupResponse body with
  | .error e => (.error e, n, [])
  | .ok fgr =>
    let (n2, evts) := fgr.group.foldl (fun acc peer => check_and_send_connect_request acc peer.name) (n, [])
    (.ok (), n2, evts)

/-- `handle_get_data_response` (src lines 734-739); the returned
`RoutingNodeAction` is discarded by the source, so the callback is recorded
as an event. -/
def handle_get_data_response (n : Node) (header : MessageHeader) (body : Body) : HandlerResult :=
  match decodeGetDataResponse body with
  | .error e => (.error e, n, [])
  | .ok g => (.ok (), n, [.callGetResponse (headerFrom header) g.data])

/-- `handle_post` (src lines 741-763). -/
def handle_post (n : Node) (header : MessageHeader) (body : Body) : HandlerResult :=
  match decodePostMsg body with
  | .error e => (.error e, n, [])
  | .ok p =>
    let our := our_authority n.routing_table n.own_id p.name header
    let callEv := Event.callPost our header.authority (headerFrom header) p.name p.data
    match n.interface.handle_post our header.authority (headerFrom header) p.name p.data with
    | .error ie => (.error (.InterfaceErr ie), n, [callEv])
    | .ok (.Reply _) => (.ok (), n, [callEv])
    | .ok (.SendOn dests) =>
      (.ok (), n, callEv :: dests.map (fun d =>
        Event.swarmSend d
          { message_type := .Post
            message_header := createSendOn header n.own_id our d
            serialised_body := .post p }))

/-- `handle_post_response` (src lines 765-768): inert. -/
def handle_post_response (n : Node) : HandlerResult :=
  (.ok (), n, [])

/-- `handle_put_public_pmid` (src lines 772-789): accept into the identity
cache only when our authority for the advertised name is NaeManager. -/
def handle_put_public_pmid (n : Node) (header : MessageHeader) (body : Body) : HandlerResult :=
  match decodePutPublicPmid body with
  | .error e => (.error e, n, [])
  | .ok p =>
    match our_authority n.routing_table n.own_id p.public_pmid.name header with
    | .NaeManager =>
      let n2 : Node :=
        { n with public_pmid_cache := cacheInsert p.public_pmid.name p.public_pmid n.public_pmid_cache }
      (.ok (), n2, [])
    | _ => (.error .BadAuthority, n, [])

/-- `handle_put_data` (src lines 792-830), also used for UnauthorisedPut. -/
def handle_put_data (n : Node) (header : MessageHeader) (body : Body) : HandlerResult :=
  match decodePutData body with
  | .error e => (.error e, n, [])
  | .ok pd =>
    let our := our_authority n.routing_table n.own_id pd.name header
    let fromAuth := fromAuthority header
    let fr := headerFrom header
    let toAddr := sendTo header
    let callEv := Event.callPut our fromAuth fr toAddr pd.data
    match n.interface.handle_put our fromAuth fr toAddr pd.data with
    | .error ie => (.error (.InterfaceErr ie), n, [callEv])
    | .ok (.Reply reply_data) =>
      let replyTo :=
        match our with
        | .ClientManager =>
          match headerReplyTo header with
          | some client => client
          | none => headerFrom header
        | _ => headerFrom header
      let resp : RoutingMessage :=
        { message_type := .PutDataResponse
          message_header := createReply header n.own_id our
          serialised_body := .putDataResponse { name := pd.name, data := .ok reply_data } }
      (.ok (), n, [callEv, .swarmSend replyTo resp])
    | .ok (.SendOn dests) =>
      (.ok (), n, callEv :: dests.map (fun d =>
        Event.swarmSend d
          { message_type := .PutData
            message_header := createSendOn header n.own_id our d
            serialised_body := .putData pd }))

/-- `handle_put_data_response` (src lines 832-838). -/
def handle_put_data_response (n : Node) (header : MessageHeader) (body : Body) : HandlerResult :=
  match decodePutDataResponse body with
  | .error e => (.error e, n, [])
  | .ok p => (.ok (), n, [.callPutResponse (fromAuthority header) (headerFrom header) p.data])

/-- Result of the pre-dispatch phase of `message_received`: either the
function returned before the per-type `match` (an early exit), or execution
fell through to type dispatch with the given state and trace. -/
inductive PhaseResult where
  | exit (r : Except RoutingError Unit) (n : Node) (evts : List Event)
  | dispatch (n : Node) (evts : List Event)

def PhaseResult.isDispatch : PhaseResult → Bool
  | .dispatch _ _ => true
  | .exit _ _ _ => false

def PhaseResult.node : PhaseResult → Node
  | .dispatch n _ => n
  | .exit _ n _ => n

def PhaseResult.events : PhaseResult → List Event
  | .dispatch _ e => e
  | .exit _ _ e => e

/-- Step 6 of `message_received` (src lines 399-402): the close-group gate。
Stop (returning Ok) unless the destination is within close-group range. -/
def gate_step (n : Node) (msg : RoutingMessage) (evts : List Event) : PhaseResult :=
  if address_in_close_group_range n.routing_table n.own_id msg.message_header.destination.dest
  then .dispatch n evts
  else .exit (.ok ()) n evts

/-- Steps 4-6 of `message_received` (src lines 375-402): the opportunistic
swarm forward of the unchanged message, the relay-to-client handling, and
the close-group gate.  In the relay fallback (addressed to us with an
unregistered `reply_to`) the source iterates the endpoint map's keys and
returns after the first send — modelled by taking the head of the
association list; with no connections the loop body never runs and
execution falls through to the gate. -/
def forward_relay_gate (n : Node) (msg : RoutingMessage) (evts : List Event) : PhaseResult :=
  if msg.message_header.destination.reply_to.isSome
      && (msg.message_header.destination.dest == n.own_id) then
    match msg.message_header.destination.reply_to with
    | some r =>
      match mapLookup r n.conn_rev with
      | some relay_to =>
        gate_step n msg (evts ++ [Event.swarmSend msg.message_header.destination.dest msg,
                                  Event.directSend relay_to msg])
      | none =>
        match n.conn_fwd with
        | [] => gate_step n msg (evts ++ [Event.swarmSend msg.message_header.destination.dest msg])
        | (ep, _) :: _ =>
          .exit (.ok ()) n (evts ++ [Event.swarmSend msg.message_header.destination.dest msg,
                                     Event.directSend ep msg])
    | none => gate_step n msg (evts ++ [Event.swarmSend msg.message_header.destination.dest msg])
  else gate_step n msg (evts ++ [Event.swarmSend msg.message_header.destination.dest msg])

/-- Step 3 of `message_received` (src lines 351-373): the cache-get
short-circuit for GetData.  On `Reply(data)` a GetDataResponse is built and
swarm-forwarded toward `send_to().dest` and the function returns; any other
action or error falls through. -/
def cache_get_step (n : Node) (msg : RoutingMessage) (evts : List Event) : PhaseResult :=
  if msg.message_type = .GetData then
    match decodeGetData msg.serialised_body with
    | .error e => .exit (.error e) n evts
    | .ok gd =>
      match n.interface.handle_cache_get gd.name_and_type_id.type_id gd.name_and_type_id.name
          (fromAuthority msg.message_header) (headerFrom msg.message_header) with
      | .ok (.Reply data) =>
        .exit (.ok ()) (construct_get_data_response_msg n msg.message_header gd data).2
          (evts ++ [Event.callCacheGet gd.name_and_type_id.type_id gd.name_and_type_id.name
                      (fromAuthority msg.message_header) (headerFrom msg.message_header),
                    Event.swarmSend (sendTo msg.message_header).dest
                      (construct_get_data_response_msg n msg.message_header gd data).1])
      | _ =>
        forward_relay_gate n msg
          (evts ++ [Event.callCacheGet gd.name_and_type_id.type_id gd.name_and_type_id.name
                      (fromAuthority msg.message_header) (headerFrom msg.message_header)])
  else forward_relay_gate n msg evts

/-- Steps 1-2 of `message_received` (src lines 326-349): filter check and
insert, then the GetDataResponse cache-put step (invoked only when the
response carries a non-empty Ok payload), feeding into `cache_get_step`. -/
def pre_dispatch (n0 : Node) (msg : RoutingMessage) : PhaseResult :=
  if getFilter msg.message_header ∈ n0.filter then
    .exit (.error .FilterCheckFailed) n0 []
  else
    if msg.message_type = .GetDataResponse then
      match decodeGetDataResponse msg.serialised_body with
      | .error e => .exit (.error e) { n0 with filter := getFilter msg.message_header :: n0.filter } []
      | .ok g =>
        match g.data with
        | .ok d =>
          if d.length ≠ 0 then
            cache_get_step { n0 with filter := getFilter msg.message_header :: n0.filter } msg
              [Event.callCachePut (fromAuthority msg.message_header) (headerFrom msg.message_header) d]
          else cache_get_step { n0 with filter := getFilter msg.message_header :: n0.filter } msg []
        | .err _ => cache_get_step { n0 with filter := getFilter msg.message_header :: n0.filter } msg []
    else cache_get_step { n0 with filter := getFilter msg.message_header :: n0.filter } msg []

/-- Step 7 of `message_received` (src lines 409-436): the per-type dispatch.
The source splits this into a pre-sentinel match (UnauthorisedPut, GetKey,
GetGroupKey) whose default arm holds the main match; the two are flattened
here, which is equivalent because the arms are disjoint. -/
def dispatch_message_type (n : Node) (msg : RoutingMessage) : HandlerResult :=
  match msg.message_type with
  | .UnauthorisedPut => handle_put_data n msg.message_header msg.serialised_body
  | .GetKey => handle_get_key n msg.message_header msg.serialised_body
  | .GetGroupKey => handle_get_group_key n msg.message_header msg.serialised_body
  | .ConnectRequest => handle_connect_request n msg.message_header msg.serialised_body
  | .ConnectResponse => handle_connect_response n msg.serialised_body
  | .FindGroup => handle_find_group n msg.message_header msg.serialised_body
  | .FindGroupResponse => handle_find_group_response n msg.serialised_body
  | .GetData => handle_get_data n msg.message_header msg.serialised_body
  | .GetDataResponse => handle_get_data_response n msg.message_header msg.serialised_body
  | .Post => handle_post n msg.message_header msg.serialised_body
  | .PostResponse => handle_post_response n
  | .PutData => handle_put_data n msg.message_header msg.serialised_body
  | .PutDataResponse => handle_put_data_response n msg.message_header msg.serialised_body
  | .PutPublicPmid => handle_put_public_pmid n msg.message_header msg.serialised_body
  | _ => (.error .UnknownMessageType, n, [])

/-- `message_received` (src lines 326-438), for an already-parsed routing
message from a known peer: the pre-dispatch pipeline followed, when reached,
by per-type dispatch. -/
def message_received (n0 : Node) (msg : RoutingMessage) : HandlerResult :=
  match pre_dispatch n0 msg with
  | .exit r n evts => (r, n, evts)
  | .dispatch n evts =>
    let (r, n2, evts2) := dispatch_message_type n msg
    (r, n2, evts ++ evts2)

/-- The public `get` operation (src lines 130-144). -/
def get_op (n : Node) (type_id : Nat) (name : NameType) : Node × List Event :=
  let destination : DestinationAddress := { dest := name, reply_to := none }
  let (mid, n2) := get_next_message_id n
  let header : MessageHeader :=
    { message_id := mid
      destination := destination
      source := our_source_address n2
      authority := .Client }
  let request : GetData := { requester := our_source_address n2,
                             name_and_type_id := { name := name, type_id := type_id } }
  let msg : RoutingMessage :=
    { message_type := .GetData, message_header := header, serialised_body := .getData request }
  (n2, [.swarmSend name msg])

/-- `handle_lost_connection` (src lines 297-306): remove the endpoint from
endpoint-to-name; when it was registered, drop the peer from the routing
table and remove the inverse entry. -/
def handle_lost_connection (n : Node) (ep : Endpoint) : Node × List Event :=
  match mapLookup ep n.conn_fwd with
  | none => ({ n with conn_fwd := mapRemove ep n.conn_fwd }, [])
  | some peer =>
    ({ n with conn_fwd := mapRemove ep n.conn_fwd,
              conn_rev := mapRemove peer n.conn_rev }, [.rtDropNode peer])

/-- `handle_bootstrap_id_response` (src lines 248-274).  The source asserts
that no bootstrap peer is recorded yet and that the sender is the dialled
endpoint; the debug assertions are not modelled.  On success it registers
the peer in both registry directions and sends a FindGroup targeted at self
through the bootstrap peer. -/
def handle_bootstrap_id_response (n : Node) (peer_endpoint : Endpoint) (body : Body) :
    Node × List Event :=
  if (mapLookup peer_endpoint n.conn_fwd).isSome then (n, [])
  else
    match body with
    | .bootstrapIdResponse resp =>
      let n2 : Node := { n with
        bootstrap_node_id := some resp.sender_id
        conn_fwd := mapInsert peer_endpoint resp.sender_id n.conn_fwd
        conn_rev := mapInsert resp.sender_id peer_endpoint n.conn_rev }
      let (mid, n3) := get_next_message_id n2
      let fgHeader : MessageHeader :=
        { message_id := mid
          destination := { dest := n3.own_id, reply_to := some n3.own_id }
          source := our_source_address n3
          authority := .ManagedNode }
      let fgMsg : RoutingMessage :=
        { message_type := .FindGroup
          message_header := fgHeader
          serialised_body := .findGroup { requester_id := n3.own_id, target_id := n3.own_id } }
      match n3.bootstrap_endpoint with
      | some ep => (n3, [.directSend ep fgMsg])
      | none => (n3, [])
    | _ => (n, [])

/-- `send_bootstrap_id_response` (src lines 236-246), inlined where
`bootstrap_message_received` calls it. -/
def send_bootstrap_id_response (n : Node) (peer_endpoint : Endpoint) : Node × List Event :=
  let (mid, n2) := get_next_message_id n
  let respMsg : RoutingMessage :=
    { message_type := .BootstrapIdResponse
      message_header :=
        { message_id := mid
          destination := { dest := 0, reply_to := none }
          source := { from_node := n2.own_id, from_group := none, reply_to := none }
          authority := .ManagedNode }
      serialised_body := .bootstrapIdResponse { sender_id := n2.own_id } }
  (n2, [.directSend peer_endpoint respMsg])

/-- `bootstrap_message_received` (src lines 440-463): the bootstrap-phase
handling of messages from endpoints not yet in the registry.  A
BootstrapIdRequest adopts the sender as bootstrap peer when none is
recorded, registers the peer in both registry directions and replies with a
BootstrapIdResponse. -/
def bootstrap_message_received (n : Node) (peer_endpoint : Endpoint) (msg : RoutingMessage) :
    Except RoutingError Unit × Node × List Event :=
  if msg.message_type = .BootstrapIdRequest then
    match decodeBootstrapIdRequest msg.serialised_body with
    | .error e => (.error e, n, [])
    | .ok req =>
      let n2 : Node :=
        if n.bootstrap_node_id = none then
          { n with bootstrap_node_id := some req.sender_id,
                   bootstrap_endpoint := some peer_endpoint }
        else n
      let n3 : Node := { n2 with
        conn_fwd := mapInsert peer_endpoint req.sender_id n2.conn_fwd
        conn_rev := mapInsert req.sender_id peer_endpoint n2.conn_rev }
      let (n4, evts) := send_bootstrap_id_response n3 peer_endpoint
      (.ok (), n4, evts)
  else if msg.message_type = .BootstrapIdResponse then
    let (n2, evts) := handle_bootstrap_id_response n peer_endpoint msg.serialised_body
    (.ok (), n2, evts)
  else (.ok (), n, [])

/-- The registry-bijection invariant of `all_connections` (spec section 3): an
endpoint maps to a name exactly when the name maps back to that endpoint. -/
def Bijective (fwd : List (Endpoint × NameType)) (rev : List (NameType × Endpoint)) : Prop :=
  ∀ e x, mapLookup e fwd = some x ↔ mapLookup x rev = some e

/-- Whether an event is an invocation of the per-type application-interface
handler for a given message type (cache callbacks are not per-type
handlers; types whose handlers call no interface method match nothing). -/
def isTypeHandlerCall (tag : MessageTypeTag) (e : Event) : Bool :=
  match tag, e with
  | .GetData, .callGet _ _ _ _ _ => true
  | .PutData, .callPut _ _ _ _ _ => true
  | .UnauthorisedPut, .callPut _ _ _ _ _ => true
  | .Post, .callPost _ _ _ _ _ => true
  | .GetKey, .callGetKey _ _ _ _ _ => true
  | .GetDataResponse, .callGetResponse _ _ => true
  | .PutDataResponse, .callPutResponse _ _ _ => true
  | _, _ => false

/-- Number of per-type handler invocations for `tag` recorded in a trace. -/
def typeHandlerCalls (tag : MessageTypeTag) (evts : List Event) : Nat :=
  evts.countP (isTypeHandlerCall tag)

/-- A null application interface used for concrete test states. -/
def nullInterface : Interface :=
  { handle_get := fun _ _ _ _ _ => .error .Abort
    handle_get_key := fun _ _ _ _ _ => .error .Abort
    handle_put := fun _ _ _ _ _ => .error .Abort
    handle_post := fun _ _ _ _ _ => .error .Abort
    handle_cache_get := fun _ _ _ _ => .error .Abort
    handle_cache_put := fun _ _ _ => .error .Abort }

/-- An interface whose cache-get always answers from the cache. -/
def cacheHitInterface : Interface :=
  { nullInterface with handle_cache_get := fun _ _ _ _ => .ok (.Reply [7]) }

/-- An under-full routing table (fewer than group-size entries): the
close-group-range predicates accept everything, `add_node` rejects. -/
def rtUnderFull : RoutingTableModel :=
  { size := 0, group_size := 32, closeGroup := [], inRange := fun _ => true,
    addNodeResult := fun _ => false, checkNode := fun _ => false }

/-- A full routing table with group size 1 whose single close-group member is
the name 1 (so, for a node with id 0, an address is in range only if it is
XOR-closer to 0 than 1 is). -/
def rtFullOne : RoutingTableModel :=
  { size := 1, group_size := 1,
    closeGroup := [{ fob := { name := 1, public_sign_key := 0 }, endpoints := [], connected_endpoint := none }],
    inRange := fun a => decide (a ≤ 1), addNodeResult := fun _ => true, checkNode := fun _ => false }

/-- A baseline concrete node used for witnesses and counterexamples. -/
def baseNode : Node :=
  { own_id := 5, public_sign_key := 0, next_message_id := 0, filter := [],
    public_pmid_cache := [], conn_fwd := [], conn_rev := [], accepting_on := [],
    bootstrap_endpoint := none, bootstrap_node_id := none,
    routing_table := rtUnderFull, interface := nullInterface }

def wHeader : MessageHeader :=
  { message_id := 1, destination := { dest := 7, reply_to := none },
    source := { from_node := 3, from_group := none, reply_to := none },
    authority := .Client }

/-- Like `wHeader` but addressed to the advertised name 9 (NaeManager case). -/
def wHeaderNae : MessageHeader := { wHeader with destination := { dest := 9, reply_to := none } }

/-- Concrete inputs for the PutPublicPmid counterexample: the advertised name
9 is in close-group range, but the destination (7) differs from it. -/
def cPmid3 : PutPublicPmid := { public_pmid := { name := 9, public_sign_key := 0 } }

/-- Concrete node for the registry counterexample: a bijective registry
already mapping endpoint 1 to name 10. -/
def cNode5 : Node :=
  { baseNode with conn_fwd := [(1, 10)], conn_rev := [(10, 1)],
                  bootstrap_endpoint := some 1, bootstrap_node_id := some 10 }

def cMsg5 : RoutingMessage :=
  { message_type := .BootstrapIdRequest, message_header := wHeader,
    serialised_body := .bootstrapIdRequest { sender_id := 10 } }

/-- Statement helper: a GetData routing message. -/
def mkGetDataMsg (hdr : MessageHeader) (gd : GetData) : RoutingMessage :=
  { message_type := .GetData, message_header := hdr, serialised_body := .getData gd }

/-- Statement helper: the node after the filter-insert step for a header. -/
def addFilter (n : Node) (hdr : MessageHeader) : Node :=
  { n with filter := getFilter hdr :: n.filter }

/-- Statement helper: the GetDataResponse built on a cache hit. -/
def cacheReplyMsg (n0 : Node) (hdr : MessageHeader) (gd : GetData) (data : Bytes) : RoutingMessage :=
  (construct_get_data_response_msg (addFilter n0 hdr) hdr gd data).1

/-- Statement helper: the node state after a cache-hit short circuit. -/
def cacheReplyNode (n0 : Node) (hdr : MessageHeader) (gd : GetData) (data : Bytes) : Node :=
  (construct_get_data_response_msg (addFilter n0 hdr) hdr gd data).2

/-- Statement helper: the trace of a cache-hit short circuit. -/
def cacheReplyEvents (n0 : Node) (hdr : MessageHeader) (gd : GetData) (data : Bytes) : List Event :=
  [Event.callCacheGet gd.name_and_type_id.type_id gd.name_and_type_id.name
     (fromAuthority hdr) (headerFrom hdr),
   Event.swarmSend (sendTo hdr).dest (cacheReplyMsg n0 hdr gd data)]

/-- Concrete node and message for the cache-hit counterexample: the cache-get
oracle replies, the destination is within close-group range. -/
def cNode7 : Node := { baseNode with interface := cacheHitInterface }

def cGd7 : GetData :=
  { requester := { from_node := 3, from_group := none, reply_to := none },
    name_and_type_id := { name := 11, type_id := 4 } }

def cMsg7 : RoutingMessage := mkGetDataMsg wHeader cGd7

/-- Concrete node with a full routing table (used for the close-group gate
witness): address 5 is not within close-group range of node 0. -/
def cNode8 : Node := { baseNode with own_id := 0, routing_table := rtFullOne }

def cMsg8 : RoutingMessage :=
  { message_type := .PutData, message_header := { wHeader with destination := { dest := 5, reply_to := none } },
    serialised_body := .putData { name := 5, data := [1] } }

/-- Concrete message for the filter-dedup witness. -/
def wMsg2 : RoutingMessage :=
  { message_type := .PutData, message_header := wHeader,
    serialised_body := .putData { name := 7, data := [2] } }

/-- Concrete inputs for the connect-rejection witness. -/
def wConnectResponse : ConnectResponse :=
  { requester_local_endpoints := [3], requester_external_endpoints := [],
    receiver_local_endpoints := [4], receiver_external_endpoints := [5],
    requester_id := 5, receiver_id := 6,
    receiver_fob := { name := 6, public_sign_key := 0 } }

def wConnectRequest : ConnectRequest :=
  { local_endpoints := [4], external_endpoints := [5],
    requester_id := 6, receiver_id := 5,
    requester_fob := { name := 6, public_sign_key := 0 } }

/-- Statement helper: the node after caching an advertised identity. -/
def withCachedPmid (n : Node) (p : PutPublicPmid) : Node :=
  { n with public_pmid_cache := cacheInsert p.public_pmid.name p.public_pmid n.public_pmid_cache }

/-- Statement helper: the node after one message-id increment. -/
def bumpMessageId (n : Node) : Node :=
  { n with next_message_id := (n.next_message_id + 1) % 2 ^ 32 }

/-- Statement helper: the node state after `bootstrap_message_received`
handles a BootstrapIdRequest carrying `pid` from endpoint `ep`. -/
def registerBootstrapPeer (n : Node) (ep : Endpoint) (pid : NameType) (hdr : MessageHeader) : Node :=
  (bootstrap_message_received n ep
    { message_type := .BootstrapIdRequest, message_header := hdr,
      serialised_body := .bootstrapIdRequest { sender_id := pid } }).2.1

-- ======================================================================
-- Helper lemmas
-- ======================================================================

theorem optionMapGetD (o : Option NameType) (f : NameType → Bool) :
    (o.map f).getD false = true ↔ ∃ g, o = some g ∧ f g = true := by
  cases o <;> simp

theorem sendTo_dest (h : MessageHeader) : (sendTo h).dest = h.destination.dest := by
  unfold sendTo; cases h.source.reply_to <;> rfl

theorem headerFrom_our_source (n : Node) (mid : Nat) (d : DestinationAddress) (a : Authority) :
    headerFrom { message_id := mid, destination := d, source := our_source_address n, authority := a }
      = n.own_id := by
  unfold headerFrom our_source_address
  rcases n.bootstrap_endpoint with _ | ep
  · rfl
  · rcases h : mapLookup ep n.conn_fwd with _ | id <;> simp [h]

theorem mapLookup_nil (k : Nat) : mapLookup k [] = none := rfl

theorem mapLookup_cons (k : Nat) (p : Nat × Nat) (m : List (Nat × Nat)) :
    mapLookup k (p :: m) = if p.1 = k then some p.2 else mapLookup k m := by
  unfold mapLookup
  by_cases h : p.1 = k
  · have hb : (p.1 == k) = true := by simpa using h
    simp [List.find?, hb, h]
  · have hb : (p.1 == k) = false := by simpa using h
    simp [List.find?, hb, h]

theorem mapLookup_remove_self (k : Nat) (m : List (Nat × Nat)) :
    mapLookup k (mapRemove k m) = none := by
  induction m with
  | nil => rfl
  | cons p tl ih =>
    unfold mapRemove at ih ⊢
    by_cases h : p.1 = k
    · rw [List.filter_cons_of_neg (by simp [h])]
      exact ih
    · rw [List.filter_cons_of_pos (by simp [h])]
      rw [mapLookup_cons]
      simp [h, ih]

theorem mapLookup_remove_ne (k k' : Nat) (m : List (Nat × Nat)) (h : k' ≠ k) :
    mapLookup k' (mapRemove k m) = mapLookup k' m := by
  induction m with
  | nil => rfl
  | cons p tl ih =>
    unfold mapRemove at ih ⊢
    by_cases hp : p.1 = k
    · rw [List.filter_cons_of_neg (by simp [hp])]
      rw [ih, mapLookup_cons]
      rw [if_neg (by rw [hp]; exact fun hh => h hh.symm)]
    · rw [List.filter_cons_of_pos (by simp [hp])]
      rw [mapLookup_cons, mapLookup_cons, ih]

theorem mapLookup_insert_self (k v : Nat) (m : List (Nat × Nat)) :
    mapLookup k (mapInsert k v m) = some v := by
  unfold mapInsert
  rw [mapLookup_cons]
  simp

theorem mapLookup_insert_ne (k k' v : Nat) (m : List (Nat × Nat)) (h : k' ≠ k) :
    mapLookup k' (mapInsert k v m) = mapLookup k' m := by
  unfold mapInsert
  rw [mapLookup_cons]
  simp only [Ne.symm h, if_false]
  exact mapLookup_remove_ne k k' m h

theorem ithc_swarmSend (t : MessageTypeTag) (a : NameType) (m : RoutingMessage) :
    isTypeHandlerCall t (.swarmSend a m) = false := by cases t <;> rfl

theorem ithc_directSend (t : MessageTypeTag) (ep : Endpoint) (m : RoutingMessage) :
    isTypeHandlerCall t (.directSend ep m) = false := by cases t <;> rfl

theorem ithc_connectTo (t : MessageTypeTag) (eps : List Endpoint) :
    isTypeHandlerCall t (.connectTo eps) = false := by cases t <;> rfl

theorem ithc_rtAddNode (t : MessageTypeTag) (ni : NodeInfo) :
    isTypeHandlerCall t (.rtAddNode ni) = false := by cases t <;> rfl

theorem ithc_rtDropNode (t : MessageTypeTag) (p : NameType) :
    isTypeHandlerCall t (.rtDropNode p) = false := by cases t <;> rfl

theorem ithc_callCacheGet (t : MessageTypeTag) (a : Nat) (b : NameType) (c : Authority) (d : NameType) :
    isTypeHandlerCall t (.callCacheGet a b c d) = false := by cases t <;> rfl

theorem ithc_callCachePut (t : MessageTypeTag) (a : Authority) (b : NameType) (c : Bytes) :
    isTypeHandlerCall t (.callCachePut a b c) = false := by cases t <;> rfl

theorem countP_swarm_map (t : MessageTypeTag) (ds : List NameType) (f : NameType → RoutingMessage) :
    (ds.map (fun d => Event.swarmSend d (f d))).countP (isTypeHandlerCall t) = 0 := by
  rw [List.countP_eq_zero]
  intro e he
  obtain ⟨d, _, rfl⟩ := List.mem_map.mp he
  simp [ithc_swarmSend]

theorem countP_swarm_comp (t : MessageTypeTag) (g : NameType → RoutingMessage) (ds : List NameType) :
    List.countP (fun d => isTypeHandlerCall t (Event.swarmSend d (g d))) ds = 0 := by
  rw [List.countP_eq_zero]
  intro a _
  simp [ithc_swarmSend]

theorem countP_call_cons_le (p : Event → Bool) (e : Event) (l : List Event)
    (h : l.countP p = 0) : (e :: l).countP p ≤ 1 := by
  rw [List.countP_cons, h]
  by_cases hp : p e <;> simp [hp]

-- Filter-preservation lemmas: no per-type handler touches the duplicate
-- filter.

theorem handle_get_data_filter (n : Node) (h : MessageHeader) (b : Body) :
    (handle_get_data n h b).2.1.filter = n.filter := by
  unfold handle_get_data
  try dsimp only
  repeat' split
  all_goals rfl

theorem handle_get_key_filter (n : Node) (h : MessageHeader) (b : Body) :
    (handle_get_key n h b).2.1.filter = n.filter := by
  unfold handle_get_key
  try dsimp only
  repeat' split
  all_goals rfl

theorem handle_get_group_key_filter (n : Node) (h : MessageHeader) (b : Body) :
    (handle_get_group_key n h b).2.1.filter = n.filter := by
  unfold handle_get_group_key
  try dsimp only
  repeat' split
  all_goals rfl

theorem handle_connect_request_filter (n : Node) (h : MessageHeader) (b : Body) :
    (handle_connect_request n h b).2.1.filter = n.filter := by
  unfold handle_connect_request
  try dsimp only
  repeat' split
  all_goals simp [get_next_message_id]

theorem handle_connect_response_filter (n : Node) (b : Body) :
    (handle_connect_response n b).2.1.filter = n.filter := by
  unfold handle_connect_response
  try dsimp only
  repeat' split
  all_goals rfl

theorem handle_find_group_filter (n : Node) (h : MessageHeader) (b : Body) :
    (handle_find_group n h b).2.1.filter = n.filter := by
  unfold handle_find_group
  try dsimp only
  repeat' split
  all_goals simp [get_next_message_id]

theorem casr_filter (acc : Node × List Event) (p : NameType) :
    (check_and_send_connect_request acc p).1.filter = acc.1.filter := by
  unfold check_and_send_connect_request
  try dsimp only
  repeat' split
  all_goals simp [get_next_message_id]

theorem foldl_casr_filter (l : List PublicPmid) (acc : Node × List Event) :
    (l.foldl (fun a peer => check_and_send_connect_request a peer.name) acc).1.filter
      = acc.1.filter := by
  induction l generalizing acc with
  | nil => rfl
  | cons hd tl ih => rw [List.foldl_cons, ih, casr_filter]

theorem handle_find_group_response_filter (n : Node) (b : Body) :
    (handle_find_group_response n b).2.1.filter = n.filter := by
  unfold handle_find_group_response
  try dsimp only
  repeat' split
  · rfl
  · rename_i fgr heq
    have := foldl_casr_filter fgr.group (n, [])
    simp_all

theorem handle_get_data_response_filter (n : Node) (h : MessageHeader) (b : Body) :
    (handle_get_data_response n h b).2.1.filter = n.filter := by
  unfold handle_get_data_response
  try dsimp only
  repeat' split
  all_goals rfl

theorem handle_post_filter (n : Node) (h : MessageHeader) (b : Body) :
    (handle_post n h b).2.1.filter = n.filter := by
  unfold handle_post
  try dsimp only
  repeat' split
  all_goals rfl

theorem handle_put_public_pmid_filter (n : Node) (h : MessageHeader) (b : Body) :
    (handle_put_public_pmid n h b).2.1.filter = n.filter := by
  unfold handle_put_public_pmid
  try dsimp only
  repeat' split
  all_goals rfl

theorem handle_put_data_filter (n : Node) (h : MessageHeader) (b : Body) :
    (handle_put_data n h b).2.1.filter = n.filter := by
  unfold handle_put_data
  try dsimp only
  repeat' split
  all_goals rfl

theorem handle_put_data_response_filter (n : Node) (h : MessageHeader) (b : Body) :
    (handle_put_data_response n h b).2.1.filter = n.filter := by
  unfold handle_put_data_response
  try dsimp only
  repeat' split
  all_goals rfl

theorem dispatch_filter (n : Node) (msg : RoutingMessage) :
    (dispatch_message_type n msg).2.1.filter = n.filter := by
  unfold dispatch_message_type
  cases msg.message_type <;>
    simp [handle_get_data_filter, handle_get_key_filter, handle_get_group_key_filter,
      handle_connect_request_filter, handle_connect_response_filter, handle_find_group_filter,
      handle_find_group_response_filter, handle_get_data_response_filter, handle_post_filter,
      handle_post_response, handle_put_public_pmid_filter, handle_put_data_filter,
      handle_put_data_response_filter]

-- Trace-count lemmas: each per-type handler records at most one
-- application-interface invocation.

theorem handle_get_data_count (t : MessageTypeTag) (n : Node) (h : MessageHeader) (b : Body) :
    (handle_get_data n h b).2.2.countP (isTypeHandlerCall t) ≤ 1 := by
  unfold handle_get_data
  try dsimp only
  repeat' split
  all_goals simp [List.countP_cons, List.countP_append, List.countP_map, Function.comp, Function.comp_def,
    countP_swarm_map, countP_swarm_comp, ithc_swarmSend, ithc_directSend, ithc_connectTo,
    ithc_rtAddNode, ithc_rtDropNode, ithc_callCacheGet, ithc_callCachePut]
  all_goals repeat' split
  all_goals simp [Function.comp, Function.comp_def, countP_swarm_comp, ithc_swarmSend]

theorem handle_get_key_count (t : MessageTypeTag) (n : Node) (h : MessageHeader) (b : Body) :
    (handle_get_key n h b).2.2.countP (isTypeHandlerCall t) ≤ 1 := by
  unfold handle_get_key
  try dsimp only
  repeat' split
  all_goals simp [List.countP_cons, List.countP_append, List.countP_map, Function.comp, Function.comp_def,
    countP_swarm_map, countP_swarm_comp, ithc_swarmSend, ithc_directSend,
    ithc_callCacheGet, ithc_callCachePut]
  all_goals repeat' split
  all_goals simp [Function.comp, Function.comp_def, countP_swarm_comp, ithc_swarmSend]

theorem handle_get_group_key_count (t : MessageTypeTag) (n : Node) (h : MessageHeader) (b : Body) :
    (handle_get_group_key n h b).2.2.countP (isTypeHandlerCall t) ≤ 1 := by
  unfold handle_get_group_key
  try dsimp only
  repeat' split
  all_goals simp [List.countP_cons, ithc_swarmSend]

theorem handle_connect_request_count (t : MessageTypeTag) (n : Node) (h : MessageHeader) (b : Body) :
    (handle_connect_request n h b).2.2.countP (isTypeHandlerCall t) ≤ 1 := by
  unfold handle_connect_request
  try dsimp only
  repeat' split
  all_goals simp [List.countP_cons, List.countP_append,
    ithc_swarmSend, ithc_directSend, ithc_connectTo, ithc_rtAddNode]

theorem handle_connect_response_count (t : MessageTypeTag) (n : Node) (b : Body) :
    (handle_connect_response n b).2.2.countP (isTypeHandlerCall t) ≤ 1 := by
  unfold handle_connect_response
  try dsimp only
  repeat' split
  all_goals simp [List.countP_cons, ithc_connectTo, ithc_rtAddNode]

theorem handle_find_group_count (t : MessageTypeTag) (n : Node) (h : MessageHeader) (b : Body) :
    (handle_find_group n h b).2.2.countP (isTypeHandlerCall t) ≤ 1 := by
  unfold handle_find_group
  try dsimp only
  repeat' split
  all_goals simp [List.countP_cons, List.countP_append, ithc_swarmSend, ithc_directSend]

theorem casr_count (t : MessageTypeTag) (acc : Node × List Event) (p : NameType) :
    (check_and_send_connect_request acc p).2.countP (isTypeHandlerCall t)
      = acc.2.countP (isTypeHandlerCall t) := by
  unfold check_and_send_connect_request
  try dsimp only
  repeat' split
  all_goals simp [List.countP_cons, List.countP_append, ithc_swarmSend, ithc_directSend]

theorem foldl_casr_count (t : MessageTypeTag) (l : List PublicPmid) (acc : Node × List Event) :
    (l.foldl (fun a peer => check_and_send_connect_request a peer.name) acc).2.countP
        (isTypeHandlerCall t)
      = acc.2.countP (isTypeHandlerCall t) := by
  induction l generalizing acc with
  | nil => rfl
  | cons hd tl ih => rw [List.foldl_cons, ih, casr_count]

theorem handle_find_group_response_count (t : MessageTypeTag) (n : Node) (b : Body) :
    (handle_find_group_response n b).2.2.countP (isTypeHandlerCall t) ≤ 1 := by
  unfold handle_find_group_response
  try dsimp only
  repeat' split
  · simp
  · rename_i fgr heq
    rw [foldl_casr_count t fgr.group (n, [])]
    simp

theorem handle_get_data_response_count (t : MessageTypeTag) (n : Node) (h : MessageHeader) (b : Body) :
    (handle_get_data_response n h b).2.2.countP (isTypeHandlerCall t) ≤ 1 := by
  unfold handle_get_data_response
  try dsimp only
  repeat' split
  all_goals simp [List.countP_cons]
  all_goals repeat' split
  all_goals simp

theorem handle_post_count (t : MessageTypeTag) (n : Node) (h : MessageHeader) (b : Body) :
    (handle_post n h b).2.2.countP (isTypeHandlerCall t) ≤ 1 := by
  unfold handle_post
  try dsimp only
  repeat' split
  all_goals simp [List.countP_cons, List.countP_map, Function.comp, Function.comp_def, countP_swarm_map,
    countP_swarm_comp, ithc_swarmSend]
  all_goals repeat' split
  all_goals simp [Function.comp, Function.comp_def, countP_swarm_comp, ithc_swarmSend]

theorem handle_put_public_pmid_count (t : MessageTypeTag) (n : Node) (h : MessageHeader) (b : Body) :
    (handle_put_public_pmid n h b).2.2.countP (isTypeHandlerCall t) ≤ 1 := by
  unfold handle_put_public_pmid
  try dsimp only
  repeat' split
  all_goals simp

theorem handle_put_data_count (t : MessageTypeTag) (n : Node) (h : MessageHeader) (b : Body) :
    (handle_put_data n h b).2.2.countP (isTypeHandlerCall t) ≤ 1 := by
  unfold handle_put_data
  try dsimp only
  repeat' split
  all_goals simp [List.countP_cons, List.countP_append, List.countP_map, Function.comp, Function.comp_def,
    countP_swarm_map, countP_swarm_comp, ithc_swarmSend]
  all_goals repeat' split
  all_goals simp [Function.comp, Function.comp_def, countP_swarm_comp, ithc_swarmSend]

theorem handle_put_data_response_count (t : MessageTypeTag) (n : Node) (h : MessageHeader) (b : Body) :
    (handle_put_data_response n h b).2.2.countP (isTypeHandlerCall t) ≤ 1 := by
  unfold handle_put_data_response
  try dsimp only
  repeat' split
  all_goals simp [List.countP_cons]
  all_goals repeat' split
  all_goals simp

theorem dispatch_count (t : MessageTypeTag) (n : Node) (msg : RoutingMessage) :
    (dispatch_message_type n msg).2.2.countP (isTypeHandlerCall t) ≤ 1 := by
  obtain ⟨tag, hdr, body⟩ := msg
  unfold dispatch_message_type
  cases tag <;>
    first
      | exact handle_get_data_count t n hdr body
      | exact handle_get_key_count t n hdr body
      | exact handle_get_group_key_count t n hdr body
      | exact handle_connect_request_count t n hdr body
      | exact handle_connect_response_count t n body
      | exact handle_find_group_count t n hdr body
      | exact handle_find_group_response_count t n body
      | exact handle_get_data_response_count t n hdr body
      | exact handle_post_count t n hdr body
      | exact handle_put_public_pmid_count t n hdr body
      | exact handle_put_data_count t n hdr body
      | exact handle_put_data_response_count t n hdr body
      | simp [handle_post_response]

-- Stage lemmas for the pre-dispatch pipeline.

theorem events_exit (r : Except RoutingError Unit) (n : Node) (e : List Event) :
    (PhaseResult.exit r n e).events = e := rfl

theorem events_dispatch (n : Node) (e : List Event) :
    (PhaseResult.dispatch n e).events = e := rfl

theorem node_exit (r : Except RoutingError Unit) (n : Node) (e : List Event) :
    (PhaseResult.exit r n e).node = n := rfl

theorem node_dispatch (n : Node) (e : List Event) :
    (PhaseResult.dispatch n e).node = n := rfl

theorem isDispatch_exit (r : Except RoutingError Unit) (n : Node) (e : List Event) :
    (PhaseResult.exit r n e).isDispatch = false := rfl

theorem gate_step_node (n : Node) (msg : RoutingMessage) (evts : List Event) :
    (gate_step n msg evts).node = n := by
  unfold gate_step
  split <;> rfl

theorem gate_step_events (n : Node) (msg : RoutingMessage) (evts : List Event) :
    (gate_step n msg evts).events = evts := by
  unfold gate_step
  split <;> rfl

theorem gate_step_dispatch_pos (n : Node) (msg : RoutingMessage) (evts : List Event)
    (h : address_in_close_group_range n.routing_table n.own_id
        msg.message_header.destination.dest = true) :
    gate_step n msg evts = .dispatch n evts := by
  simp [gate_step, h]

theorem gate_step_not_dispatch (n : Node) (msg : RoutingMessage) (evts : List Event)
    (h : address_in_close_group_range n.routing_table n.own_id
        msg.message_header.destination.dest = false) :
    (gate_step n msg evts).isDispatch = false := by
  simp [gate_step, h, PhaseResult.isDispatch]

theorem frg_node (n : Node) (msg : RoutingMessage) (evts : List Event) :
    (forward_relay_gate n msg evts).node = n := by
  unfold forward_relay_gate
  repeat' split
  all_goals first | rfl | exact gate_step_node _ _ _

theorem frg_count (t : MessageTypeTag) (n : Node) (msg : RoutingMessage) (evts : List Event) :
    ((forward_relay_gate n msg evts).events).countP (isTypeHandlerCall t)
      = evts.countP (isTypeHandlerCall t) := by
  unfold forward_relay_gate
  repeat' split
  all_goals simp [gate_step_events, events_exit, events_dispatch, List.countP_append,
    List.countP_cons, ithc_swarmSend, ithc_directSend]

theorem frg_not_dispatch (n : Node) (msg : RoutingMessage) (evts : List Event)
    (h : address_in_close_group_range n.routing_table n.own_id
        msg.message_header.destination.dest = false) :
    (forward_relay_gate n msg evts).isDispatch = false := by
  unfold forward_relay_gate
  repeat' split
  all_goals first | rfl | exact gate_step_not_dispatch _ _ _ h

theorem frg_dispatch (n : Node) (msg : RoutingMessage) (evts : List Event)
    (hrelay : ∀ r, msg.message_header.destination.reply_to = some r →
       msg.message_header.destination.dest = n.own_id →
       mapLookup r n.conn_rev = none → n.conn_fwd = [])
    (hrange : address_in_close_group_range n.routing_table n.own_id
        msg.message_header.destination.dest = true) :
    ∃ evts2, forward_relay_gate n msg evts = .dispatch n evts2 ∧
      Event.swarmSend msg.message_header.destination.dest msg ∈ evts2 := by
  unfold forward_relay_gate
  by_cases hc : (msg.message_header.destination.reply_to.isSome
      && (msg.message_header.destination.dest == n.own_id)) = true
  · rw [if_pos hc]
    have hdest : msg.message_header.destination.dest = n.own_id := by
      simp only [Bool.and_eq_true, beq_iff_eq] at hc
      exact hc.2
    split
    · rename_i r hr
      split
      · exact ⟨_, gate_step_dispatch_pos n msg _ hrange, by simp⟩
      · rename_i hlk
        split
        · exact ⟨_, gate_step_dispatch_pos n msg _ hrange, by simp⟩
        · rename_i ep rest tail heq
          exact absurd (hrelay r hr hdest hlk) (by rw [heq]; simp)
    · exact ⟨_, gate_step_dispatch_pos n msg _ hrange, by simp⟩
  · rw [if_neg hc]
    exact ⟨_, gate_step_dispatch_pos n msg _ hrange, by simp⟩

theorem cgs_node_filter (n : Node) (msg : RoutingMessage) (evts : List Event) :
    (cache_get_step n msg evts).node.filter = n.filter := by
  unfold cache_get_step
  repeat' split
  all_goals first
    | rfl
    | simp [frg_node]
    | simp [node_exit, construct_get_data_response_msg, get_next_message_id]

theorem cgs_count (t : MessageTypeTag) (n : Node) (msg : RoutingMessage) (evts : List Event) :
    ((cache_get_step n msg evts).events).countP (isTypeHandlerCall t)
      = evts.countP (isTypeHandlerCall t) := by
  unfold cache_get_step
  repeat' split
  all_goals simp [frg_count, events_exit, events_dispatch, List.countP_append, List.countP_cons,
    ithc_swarmSend, ithc_callCacheGet]

theorem cgs_not_dispatch (n : Node) (msg : RoutingMessage) (evts : List Event)
    (h : address_in_close_group_range n.routing_table n.own_id
        msg.message_header.destination.dest = false) :
    (cache_get_step n msg evts).isDispatch = false := by
  unfold cache_get_step
  repeat' split
  all_goals first | rfl | exact frg_not_dispatch _ _ _ h

theorem cgs_dispatch (n : Node) (msg : RoutingMessage) (evts : List Event)
    (hget : msg.message_type = .GetData → ∃ g, msg.serialised_body = .getData g ∧
       ∀ d, n.interface.handle_cache_get g.name_and_type_id.type_id g.name_and_type_id.name
          (fromAuthority msg.message_header) (headerFrom msg.message_header) ≠ .ok (.Reply d))
    (hrelay : ∀ r, msg.message_header.destination.reply_to = some r →
       msg.message_header.destination.dest = n.own_id →
       mapLookup r n.conn_rev = none → n.conn_fwd = [])
    (hrange : address_in_close_group_range n.routing_table n.own_id
        msg.message_header.destination.dest = true) :
    ∃ evts2, cache_get_step n msg evts = .dispatch n evts2 ∧
      Event.swarmSend msg.message_header.destination.dest msg ∈ evts2 := by
  unfold cache_get_step
  by_cases ht : msg.message_type = .GetData
  · rw [if_pos ht]
    obtain ⟨g, hbody, hnr⟩ := hget ht
    rw [hbody]
    split
    · rename_i e heq
      exact absurd heq (by simp [decodeGetData])
    · rename_i gd heq
      have hg : g = gd := by simpa [decodeGetData] using heq
      subst hg
      split
      · rename_i data heq2
        exact absurd heq2 (hnr data)
      all_goals exact frg_dispatch n msg _ hrelay hrange
  · rw [if_neg ht]
    exact frg_dispatch n msg evts hrelay hrange

-- ======================================================================
-- Claim theorems
-- ======================================================================

/-- Claim C1: for every target element and header, `our_authority` returns
exactly one of ClientManager, NaeManager, NodeManager, ManagedNode, Unknown,
evaluating conditions (a)-(d) of the claim in order with the first match
winning (the claim-side cascade is `our_authority_claim`). -/
theorem our_authority_matches_claim (rt : RoutingTableModel) (own element : NameType)
    (header : MessageHeader) :
    our_authority rt own element header = our_authority_claim rt own element header ∧
    our_authority rt own element header ∈
      [Authority.ClientManager, Authority.NaeManager, Authority.NodeManager,
       Authority.ManagedNode, Authority.Unknown] := by
  constructor
  · unfold our_authority our_authority_claim
    split_ifs <;>
      simp_all [Bool.and_eq_true, Bool.not_eq_true', beq_iff_eq, bne_iff_ne, optionMapGetD]
  · unfold our_authority
    split_ifs <;> simp

/-- Claim C3 (amended): `handle_put_public_pmid` succeeds — returning Ok and
inserting the advertised identity into the cache — exactly when our authority
for the advertised name is NaeManager, which holds exactly when the name is
within close-group range AND the header's destination equals the name; in
every other well-formed case it returns BadAuthority with the cache
unchanged, so names are in close-group range at insertion time. -/
theorem put_public_pmid_nae_gate (n : Node) (header : MessageHeader) (p : PutPublicPmid) :
    (our_authority n.routing_table n.own_id p.public_pmid.name header = .NaeManager ↔
      (n.routing_table.inRange p.public_pmid.name = true ∧
        header.destination.dest = p.public_pmid.name)) ∧
    (our_authority n.routing_table n.own_id p.public_pmid.name header = .NaeManager →
      handle_put_public_pmid n header (.putPublicPmid p) =
        (.ok (), withCachedPmid n p, []) ∧
      n.routing_table.inRange p.public_pmid.name = true) ∧
    (our_authority n.routing_table n.own_id p.public_pmid.name header ≠ .NaeManager →
      handle_put_public_pmid n header (.putPublicPmid p) = (.error .BadAuthority, n, [])) := by
  have hiff : our_authority n.routing_table n.own_id p.public_pmid.name header = .NaeManager ↔
      (n.routing_table.inRange p.public_pmid.name = true ∧
        header.destination.dest = p.public_pmid.name) := by
    constructor
    · intro h
      unfold our_authority at h
      split_ifs at h <;>
        simp_all [Bool.and_eq_true, Bool.not_eq_true', beq_iff_eq, bne_iff_ne]
    · rintro ⟨hr, hd⟩
      unfold our_authority
      simp [hd, hr]
  refine ⟨hiff, fun h => ⟨?_, (hiff.mp h).1⟩, fun h => ?_⟩
  · simp [handle_put_public_pmid, decodePutPublicPmid, h, withCachedPmid]
  · rcases hv : our_authority n.routing_table n.own_id p.public_pmid.name header <;>
      first
        | exact absurd hv h
        | simp [handle_put_public_pmid, decodePutPublicPmid, hv]

/-- Claim C3 counterexample: with the routing table under-full (every address
in close-group range) and a header whose destination (7) differs from the
advertised name (9), the name is within range yet the handler rejects with
BadAuthority — refuting "succeeds iff the name is in close-group range". -/
theorem put_public_pmid_range_only_refuted :
    baseNode.routing_table.inRange cPmid3.public_pmid.name = true ∧
    handle_put_public_pmid baseNode wHeader (.putPublicPmid cPmid3) =
      (.error .BadAuthority, baseNode, []) :=
  ⟨rfl, rfl⟩

/-- Claim C3 witness: a NaeManager-authority input on which the amended
theorem yields the successful insertion. -/
theorem put_public_pmid_nae_gate_witness :
    our_authority baseNode.routing_table baseNode.own_id cPmid3.public_pmid.name wHeaderNae
      = .NaeManager ∧
    handle_put_public_pmid baseNode wHeaderNae (.putPublicPmid cPmid3) =
      (.ok (), withCachedPmid baseNode cPmid3, []) :=
  ⟨rfl, ((put_public_pmid_nae_gate baseNode wHeaderNae cPmid3).2.1 rfl).1⟩

/-- Claim C4: `get_next_message_id` returns the current counter, and a second
sequential call returns the first value plus one modulo `2 ^ 32`. -/
theorem next_message_id_monotone (n : Node) :
    (get_next_message_id n).1 = n.next_message_id ∧
    (get_next_message_id (get_next_message_id n).2).1 =
      ((get_next_message_id n).1 + 1) % 2 ^ 32 :=
  ⟨rfl, rfl⟩

/-- Claim C9: the public `get` operation sends exactly one GetData message,
swarm-routed toward `name`, with authority Client, destination `name`, and a
source whose `from()` view resolves to this node's id; no failure is
reported (the operation is total and yields exactly this trace). -/
theorem get_sends_single_get_data (n0 : Node) (type_id : Nat) (name : NameType) :
    ∃ m : RoutingMessage,
      get_op n0 type_id name = (bumpMessageId n0, [.swarmSend name m]) ∧
      m.message_type = .GetData ∧
      m.message_header.authority = .Client ∧
      m.message_header.destination = { dest := name, reply_to := none } ∧
      m.serialised_body = .getData
        { requester := our_source_address (bumpMessageId n0),
          name_and_type_id := { name := name, type_id := type_id } } ∧
      headerFrom m.message_header = n0.own_id := by
  refine ⟨_, rfl, rfl, rfl, rfl, rfl, ?_⟩
  exact headerFrom_our_source (bumpMessageId n0) _ _ _

/-- Claim C10: when the routing table rejects the peer advertised in a valid
ConnectResponse, the handler returns Ok with no connection attempts and no
sends (only the add-node call is made); in the analogous rejection case
`handle_connect_request` instead returns AlreadyConnected. -/
theorem connect_rejection_contrast (n : Node) (hdr : MessageHeader)
    (cr : ConnectResponse) (cq : ConnectRequest)
    (h1 : n.routing_table.addNodeResult (nodeInfoOfConnectResponse cr) = false)
    (h2 : n.routing_table.addNodeResult (nodeInfoOfConnectRequest cq) = false) :
    handle_connect_response n (.connectResponse cr) =
      (.ok (), n, [.rtAddNode (nodeInfoOfConnectResponse cr)]) ∧
    handle_connect_request n hdr (.connectRequest cq) =
      (.error .AlreadyConnected, n, [.rtAddNode (nodeInfoOfConnectRequest cq)]) := by
  constructor
  · simp [handle_connect_response, decodeConnectResponse, h1]
  · simp [handle_connect_request, decodeConnectRequest, h2]

/-- Claim C5 (amended): a bootstrap-identity registration inserts both
registry directions and preserves the bijection provided neither the
endpoint nor the name is already registered; `handle_lost_connection` for a
registered endpoint unconditionally removes both directions, preserves the
bijection, and drops the peer from the routing table. -/
theorem bijective_insert (fwd rev : List (Nat × Nat)) (ep pid : Nat)
    (hbij : Bijective fwd rev) (hep : mapLookup ep fwd = none)
    (hid : mapLookup pid rev = none) :
    Bijective (mapInsert ep pid fwd) (mapInsert pid ep rev) := by
  intro e x
  by_cases he : e = ep
  · by_cases hx : x = pid
    · rw [he, hx, mapLookup_insert_self, mapLookup_insert_self]
      simp
    · rw [he, mapLookup_insert_self, mapLookup_insert_ne pid x ep rev hx]
      constructor
      · intro hsome
        exact absurd (Option.some.inj hsome).symm hx
      · intro hsome
        have h2 := (hbij ep x).mpr hsome
        rw [hep] at h2
        exact absurd h2 (by simp)
  · by_cases hx : x = pid
    · rw [hx, mapLookup_insert_ne ep e pid fwd he, mapLookup_insert_self]
      constructor
      · intro hsome
        have h2 := (hbij e pid).mp hsome
        rw [hid] at h2
        exact absurd h2 (by simp)
      · intro hsome
        exact absurd (Option.some.inj hsome).symm he
    · rw [mapLookup_insert_ne ep e pid fwd he, mapLookup_insert_ne pid x ep rev hx]
      exact hbij e x

theorem bijective_remove (fwd rev : List (Nat × Nat)) (ep pid : Nat)
    (hbij : Bijective fwd rev) (hl : mapLookup ep fwd = some pid) :
    Bijective (mapRemove ep fwd) (mapRemove pid rev) := by
  intro e x
  by_cases he : e = ep
  · by_cases hx : x = pid
    · rw [he, hx, mapLookup_remove_self, mapLookup_remove_self]
      simp
    · rw [he, mapLookup_remove_self, mapLookup_remove_ne pid x rev hx]
      constructor
      · intro hsome
        exact absurd hsome (by simp)
      · intro hsome
        have h2 := (hbij ep x).mpr hsome
        rw [hl] at h2
        exact absurd (Option.some.inj h2) (fun hh => hx hh.symm)
  · by_cases hx : x = pid
    · rw [hx, mapLookup_remove_ne ep e fwd he, mapLookup_remove_self]
      constructor
      · intro hsome
        have h2 := (hbij e pid).mp hsome
        have h3 := (hbij ep pid).mp hl
        rw [h3] at h2
        exact absurd (Option.some.inj h2) (fun hh => he hh.symm)
      · intro hsome
        exact absurd hsome (by simp)
    · rw [mapLookup_remove_ne ep e fwd he, mapLookup_remove_ne pid x rev hx]
      exact hbij e x

/-- Claim C5 (amended): a bootstrap-identity registration inserts both
registry directions and preserves the bijection provided neither the
endpoint nor the name is already registered; `handle_lost_connection` for a
registered endpoint unconditionally removes both directions, preserves the
bijection, and drops the peer from the routing table. -/
theorem registry_bijection_guarded
    (n : Node) (ep : Endpoint) (pid : NameType) (hdr : MessageHeader)
    (hbij : Bijective n.conn_fwd n.conn_rev)
    (hep : mapLookup ep n.conn_fwd = none)
    (hid : mapLookup pid n.conn_rev = none)
    (m : Node) (ep2 : Endpoint) (pid2 : NameType)
    (hbij2 : Bijective m.conn_fwd m.conn_rev)
    (hl : mapLookup ep2 m.conn_fwd = some pid2) :
    (mapLookup ep (registerBootstrapPeer n ep pid hdr).conn_fwd = some pid ∧
     mapLookup pid (registerBootstrapPeer n ep pid hdr).conn_rev = some ep ∧
     Bijective (registerBootstrapPeer n ep pid hdr).conn_fwd
       (registerBootstrapPeer n ep pid hdr).conn_rev) ∧
    (mapLookup ep2 (handle_lost_connection m ep2).1.conn_fwd = none ∧
     mapLookup pid2 (handle_lost_connection m ep2).1.conn_rev = none ∧
     Bijective (handle_lost_connection m ep2).1.conn_fwd (handle_lost_connection m ep2).1.conn_rev ∧
     (handle_lost_connection m ep2).2 = [.rtDropNode pid2]) := by
  constructor
  · have hfwd : (registerBootstrapPeer n ep pid hdr).conn_fwd = mapInsert ep pid n.conn_fwd := by
      unfold registerBootstrapPeer bootstrap_message_received send_bootstrap_id_response
        decodeBootstrapIdRequest get_next_message_id
      by_cases hb : n.bootstrap_node_id = none <;> simp [hb]
    have hrev : (registerBootstrapPeer n ep pid hdr).conn_rev = mapInsert pid ep n.conn_rev := by
      unfold registerBootstrapPeer bootstrap_message_received send_bootstrap_id_response
        decodeBootstrapIdRequest get_next_message_id
      by_cases hb : n.bootstrap_node_id = none <;> simp [hb]
    rw [hfwd, hrev]
    exact ⟨mapLookup_insert_self ep pid n.conn_fwd, mapLookup_insert_self pid ep n.conn_rev,
      bijective_insert n.conn_fwd n.conn_rev ep pid hbij hep hid⟩
  · have hstep : handle_lost_connection m ep2 =
        ({ m with conn_fwd := mapRemove ep2 m.conn_fwd,
                  conn_rev := mapRemove pid2 m.conn_rev }, [.rtDropNode pid2]) := by
      unfold handle_lost_connection
      rw [hl]
    rw [hstep]
    exact ⟨mapLookup_remove_self ep2 m.conn_fwd, mapLookup_remove_self pid2 m.conn_rev,
      bijective_remove m.conn_fwd m.conn_rev ep2 pid2 hbij2 hl, rfl⟩

/-- Claim C5 counterexample: from a bijective registry mapping endpoint 1 to
name 10, a BootstrapIdRequest from endpoint 2 re-advertising name 10 leaves
the registry non-bijective (endpoint 1 still maps to 10, but 10 now maps
back to 2), refuting "kept a bijection by every operation". -/
theorem registry_bijection_refuted :
    Bijective cNode5.conn_fwd cNode5.conn_rev ∧
    ¬ Bijective (bootstrap_message_received cNode5 2 cMsg5).2.1.conn_fwd
        (bootstrap_message_received cNode5 2 cMsg5).2.1.conn_rev := by
  constructor
  · intro e x
    by_cases he : e = 1 <;> by_cases hx : x = 10 <;>
      simp_all [cNode5, baseNode, mapLookup_cons, mapLookup_nil] <;> omega
  · intro h
    have h1 : mapLookup 1 (bootstrap_message_received cNode5 2 cMsg5).2.1.conn_fwd = some 10 := by
      decide
    have h2 := (h 1 10).mp h1
    revert h2
    decide

/-- Claim C5 witness: the guarded registration and removal at concrete
inputs (fresh pair (2, 20) registered into the singleton registry of
`cNode5`; lost connection on endpoint 1). -/
theorem registry_bijection_guarded_witness :
    (mapLookup 2 (registerBootstrapPeer cNode5 2 20 wHeader).conn_fwd = some 20 ∧
     mapLookup 20 (registerBootstrapPeer cNode5 2 20 wHeader).conn_rev = some 2 ∧
     Bijective (registerBootstrapPeer cNode5 2 20 wHeader).conn_fwd
       (registerBootstrapPeer cNode5 2 20 wHeader).conn_rev) ∧
    (mapLookup 1 (handle_lost_connection cNode5 1).1.conn_fwd = none ∧
     mapLookup 10 (handle_lost_connection cNode5 1).1.conn_rev = none ∧
     Bijective (handle_lost_connection cNode5 1).1.conn_fwd
       (handle_lost_connection cNode5 1).1.conn_rev ∧
     (handle_lost_connection cNode5 1).2 = [.rtDropNode 10]) := by
  have hbij : Bijective cNode5.conn_fwd cNode5.conn_rev := by
    intro e x
    by_cases he : e = 1 <;> by_cases hx : x = 10 <;>
      simp_all [cNode5, baseNode, mapLookup_cons, mapLookup_nil] <;> omega
  exact registry_bijection_guarded cNode5 2 20 wHeader hbij (by decide) (by decide)
    cNode5 1 10 hbij (by decide)

/-- Claim C10 witness: the rejection contrast at concrete inputs. -/
theorem connect_rejection_contrast_witness :
    handle_connect_response baseNode (.connectResponse wConnectResponse) =
      (.ok (), baseNode, [.rtAddNode (nodeInfoOfConnectResponse wConnectResponse)]) ∧
    handle_connect_request baseNode wHeader (.connectRequest wConnectRequest) =
      (.error .AlreadyConnected, baseNode,
        [.rtAddNode (nodeInfoOfConnectRequest wConnectRequest)]) :=
  connect_rejection_contrast baseNode wHeader wConnectResponse wConnectRequest rfl rfl


-- Pre-dispatch pipeline lemmas.

theorem pd_filter_hit (n0 : Node) (msg : RoutingMessage)
    (h : getFilter msg.message_header ∈ n0.filter) :
    pre_dispatch n0 msg = .exit (.error .FilterCheckFailed) n0 [] := by
  unfold pre_dispatch
  rw [if_pos h]

theorem pd_node_filter (n0 : Node) (msg : RoutingMessage)
    (h : getFilter msg.message_header ∉ n0.filter) :
    (pre_dispatch n0 msg).node.filter = getFilter msg.message_header :: n0.filter := by
  unfold pre_dispatch
  rw [if_neg h]
  repeat' split
  all_goals first
    | rfl
    | exact cgs_node_filter _ _ _

theorem pd_count (t : MessageTypeTag) (n0 : Node) (msg : RoutingMessage) :
    ((pre_dispatch n0 msg).events).countP (isTypeHandlerCall t) = 0 := by
  unfold pre_dispatch
  repeat' split
  all_goals simp [cgs_count, events_exit, events_dispatch, List.countP_cons, ithc_callCachePut]

theorem pd_not_dispatch_range (n0 : Node) (msg : RoutingMessage)
    (h : address_in_close_group_range n0.routing_table n0.own_id
        msg.message_header.destination.dest = false) :
    (pre_dispatch n0 msg).isDispatch = false := by
  unfold pre_dispatch
  repeat' split
  all_goals first
    | rfl
    | exact cgs_not_dispatch _ _ _ h

theorem pd_dispatch (n0 : Node) (msg : RoutingMessage)
    (hfilter : getFilter msg.message_header ∉ n0.filter)
    (hgdr : msg.message_type = .GetDataResponse →
       ∃ g, msg.serialised_body = .getDataResponse g)
    (hget : msg.message_type = .GetData → ∃ g, msg.serialised_body = .getData g ∧
       ∀ d, n0.interface.handle_cache_get g.name_and_type_id.type_id g.name_and_type_id.name
          (fromAuthority msg.message_header) (headerFrom msg.message_header) ≠ .ok (.Reply d))
    (hrelay : ∀ r, msg.message_header.destination.reply_to = some r →
       msg.message_header.destination.dest = n0.own_id →
       mapLookup r n0.conn_rev = none → n0.conn_fwd = [])
    (hrange : address_in_close_group_range n0.routing_table n0.own_id
        msg.message_header.destination.dest = true) :
    ∃ evts, pre_dispatch n0 msg = .dispatch (addFilter n0 msg.message_header) evts ∧
      Event.swarmSend msg.message_header.destination.dest msg ∈ evts := by
  simp only [addFilter]
  unfold pre_dispatch
  rw [if_neg hfilter]
  by_cases ht : msg.message_type = .GetDataResponse
  · rw [if_pos ht]
    obtain ⟨g, hbody⟩ := hgdr ht
    rw [hbody]
    split
    · rename_i e heq
      exact absurd heq (by simp [decodeGetDataResponse])
    · rename_i g2 heq
      have hg : g = g2 := by simpa [decodeGetDataResponse] using heq
      subst hg
      split
      · split
        · exact cgs_dispatch _ msg _ hget hrelay hrange
        · exact cgs_dispatch _ msg _ hget hrelay hrange
      · exact cgs_dispatch _ msg _ hget hrelay hrange
  · rw [if_neg ht]
    exact cgs_dispatch _ msg _ hget hrelay hrange

-- `message_received` lemmas.

theorem mr_filtered (n1 : Node) (msg : RoutingMessage)
    (h : getFilter msg.message_header ∈ n1.filter) :
    message_received n1 msg = (.error .FilterCheckFailed, n1, []) := by
  unfold message_received
  rw [pd_filter_hit n1 msg h]

theorem mr_filter (n0 : Node) (msg : RoutingMessage)
    (h : getFilter msg.message_header ∉ n0.filter) :
    (message_received n0 msg).2.1.filter = getFilter msg.message_header :: n0.filter := by
  unfold message_received
  split
  · rename_i r n evts hpd
    have hnode := pd_node_filter n0 msg h
    rw [hpd] at hnode
    exact hnode
  · rename_i n evts hpd
    have hnode := pd_node_filter n0 msg h
    rw [hpd] at hnode
    have hd := dispatch_filter n msg
    rcases hdm : dispatch_message_type n msg with ⟨r2, n2, evts2⟩
    rw [hdm] at hd
    dsimp only
    dsimp only at hd
    rw [hd]
    exact hnode

theorem mr_count (t : MessageTypeTag) (n0 : Node) (msg : RoutingMessage) :
    ((message_received n0 msg).2.2).countP (isTypeHandlerCall t) ≤ 1 := by
  unfold message_received
  split
  · rename_i r n evts hpd
    have hpre := pd_count t n0 msg
    rw [hpd] at hpre
    simp only [events_exit] at hpre
    simp [hpre]
  · rename_i n evts hpd
    have hpre := pd_count t n0 msg
    rw [hpd] at hpre
    simp only [events_dispatch] at hpre
    have hdc := dispatch_count t n msg
    rcases hdm : dispatch_message_type n msg with ⟨r2, n2, evts2⟩
    rw [hdm] at hdc
    dsimp only
    dsimp only at hdc
    rw [List.countP_append, hpre]
    omega

/-- Claim C2: delivering the same routing message twice: the first receipt
inserts the fingerprint into the filter and processing proceeds; the second
returns FilterCheckFailed with the state unchanged and an empty trace (no
cache call, forwarding or dispatch); the per-type handler is invoked at most
once across both invocations. -/
theorem message_received_filter_dedup (n0 : Node) (msg : RoutingMessage)
    (h : getFilter msg.message_header ∉ n0.filter) :
    getFilter msg.message_header ∈ (message_received n0 msg).2.1.filter ∧
    message_received (message_received n0 msg).2.1 msg =
      (.error .FilterCheckFailed, (message_received n0 msg).2.1, []) ∧
    typeHandlerCalls msg.message_type
        ((message_received n0 msg).2.2
          ++ (message_received (message_received n0 msg).2.1 msg).2.2) ≤ 1 := by
  have hmem : getFilter msg.message_header ∈ (message_received n0 msg).2.1.filter := by
    rw [mr_filter n0 msg h]
    exact List.mem_cons_self _ _
  have hsecond := mr_filtered (message_received n0 msg).2.1 msg hmem
  refine ⟨hmem, hsecond, ?_⟩
  rw [hsecond]
  unfold typeHandlerCalls
  dsimp only
  rw [List.append_nil]
  exact mr_count msg.message_type n0 msg

/-- Claim C2 witness: the dedup behaviour at a concrete node and message. -/
theorem message_received_filter_dedup_witness :
    getFilter wMsg2.message_header ∉ baseNode.filter ∧
    (getFilter wMsg2.message_header ∈ (message_received baseNode wMsg2).2.1.filter ∧
     message_received (message_received baseNode wMsg2).2.1 wMsg2 =
       (.error .FilterCheckFailed, (message_received baseNode wMsg2).2.1, []) ∧
     typeHandlerCalls wMsg2.message_type
         ((message_received baseNode wMsg2).2.2
           ++ (message_received (message_received baseNode wMsg2).2.1 wMsg2).2.2) ≤ 1) :=
  ⟨by decide, message_received_filter_dedup baseNode wMsg2 (by decide)⟩

/-- Claim C6: for a GetData from a known peer passing the filter, when
`handle_cache_get` replies with data, `message_received` emits exactly one
GetDataResponse carrying that data toward the originator's
`destination.dest`, returns Ok, does not invoke the type handler
`handle_get`, and does not forward the original GetData. -/
theorem cache_get_short_circuit (n0 : Node) (hdr : MessageHeader) (gd : GetData) (data : Bytes)
    (hfilter : getFilter hdr ∉ n0.filter)
    (hcache : n0.interface.handle_cache_get gd.name_and_type_id.type_id gd.name_and_type_id.name
        (fromAuthority hdr) (headerFrom hdr) = .ok (.Reply data)) :
    message_received n0 (mkGetDataMsg hdr gd) =
      (.ok (), cacheReplyNode n0 hdr gd data, cacheReplyEvents n0 hdr gd data) ∧
    (sendTo hdr).dest = hdr.destination.dest ∧
    (cacheReplyMsg n0 hdr gd data).message_type = .GetDataResponse ∧
    (cacheReplyMsg n0 hdr gd data).serialised_body =
      .getDataResponse { name_and_type_id := gd.name_and_type_id, data := .ok data } ∧
    typeHandlerCalls .GetData (cacheReplyEvents n0 hdr gd data) = 0 ∧
    Event.swarmSend hdr.destination.dest (mkGetDataMsg hdr gd) ∉ cacheReplyEvents n0 hdr gd data := by
  have hpd : pre_dispatch n0 (mkGetDataMsg hdr gd) =
      .exit (.ok ()) (cacheReplyNode n0 hdr gd data) (cacheReplyEvents n0 hdr gd data) := by
    unfold pre_dispatch cache_get_step
    simp only [mkGetDataMsg, decodeGetData, hfilter, not_false_eq_true, if_true, if_false,
      ite_true, ite_false, reduceCtorEq]
    rw [hcache]
    rfl
  refine ⟨?_, sendTo_dest hdr, rfl, rfl, ?_, ?_⟩
  · unfold message_received
    rw [hpd]
  · unfold typeHandlerCalls cacheReplyEvents
    simp [List.countP_cons, ithc_swarmSend, ithc_callCacheGet]
  · unfold cacheReplyEvents cacheReplyMsg mkGetDataMsg construct_get_data_response_msg
    simp [get_next_message_id]

/-- Claim C6 witness: the cache-hit short circuit at a concrete node whose
cache-get oracle replies with `[7]`. -/
theorem cache_get_short_circuit_witness :
    getFilter wHeader ∉ cNode7.filter ∧
    (message_received cNode7 (mkGetDataMsg wHeader cGd7) =
        (.ok (), cacheReplyNode cNode7 wHeader cGd7 [7], cacheReplyEvents cNode7 wHeader cGd7 [7]) ∧
     (sendTo wHeader).dest = wHeader.destination.dest ∧
     (cacheReplyMsg cNode7 wHeader cGd7 [7]).message_type = .GetDataResponse ∧
     (cacheReplyMsg cNode7 wHeader cGd7 [7]).serialised_body =
       .getDataResponse { name_and_type_id := cGd7.name_and_type_id, data := .ok [7] } ∧
     typeHandlerCalls .GetData (cacheReplyEvents cNode7 wHeader cGd7 [7]) = 0 ∧
     Event.swarmSend wHeader.destination.dest (mkGetDataMsg wHeader cGd7) ∉
       cacheReplyEvents cNode7 wHeader cGd7 [7]) :=
  ⟨by decide, cache_get_short_circuit cNode7 wHeader cGd7 [7] (by decide) rfl⟩

/-- Claim C7 (amended): for an inbound message from a known peer that passes
the filter, whose required body decodes succeed, that is not a GetData
answered from the cache, that does not take the relay fallback early return,
and whose destination lies within the local close-group range,
`message_received` both forwards the unchanged message via swarm-or-parallel
toward `destination.dest` (step 4) and reaches per-type dispatch for the
same message (step 7). -/
theorem forward_and_dispatch_guarded (n0 : Node) (msg : RoutingMessage)
    (hfilter : getFilter msg.message_header ∉ n0.filter)
    (hgdr : msg.message_type = .GetDataResponse →
       ∃ g, msg.serialised_body = .getDataResponse g)
    (hget : msg.message_type = .GetData → ∃ g, msg.serialised_body = .getData g ∧
       ∀ d, n0.interface.handle_cache_get g.name_and_type_id.type_id g.name_and_type_id.name
          (fromAuthority msg.message_header) (headerFrom msg.message_header) ≠ .ok (.Reply d))
    (hrelay : ∀ r, msg.message_header.destination.reply_to = some r →
       msg.message_header.destination.dest = n0.own_id →
       mapLookup r n0.conn_rev = none → n0.conn_fwd = [])
    (hrange : address_in_close_group_range n0.routing_table n0.own_id
        msg.message_header.destination.dest = true) :
    ∃ evts, pre_dispatch n0 msg = .dispatch (addFilter n0 msg.message_header) evts ∧
      Event.swarmSend msg.message_header.destination.dest msg ∈ evts ∧
      message_received n0 msg =
        ((dispatch_message_type (addFilter n0 msg.message_header) msg).1,
         (dispatch_message_type (addFilter n0 msg.message_header) msg).2.1,
         evts ++ (dispatch_message_type (addFilter n0 msg.message_header) msg).2.2) := by
  obtain ⟨evts, hpd, hmem⟩ := pd_dispatch n0 msg hfilter hgdr hget hrelay hrange
  refine ⟨evts, hpd, hmem, ?_⟩
  unfold message_received
  rw [hpd]

/-- Claim C7 counterexample: a GetData whose cache-get oracle replies — it
passes the filter, its destination is within close-group range, yet
`message_received` exits before the opportunistic forward and never reaches
per-type dispatch: neither step 4 nor step 7 fires. -/
theorem forward_and_dispatch_refuted :
    getFilter cMsg7.message_header ∉ cNode7.filter ∧
    address_in_close_group_range cNode7.routing_table cNode7.own_id
        cMsg7.message_header.destination.dest = true ∧
    (pre_dispatch cNode7 cMsg7).isDispatch = false ∧
    Event.swarmSend cMsg7.message_header.destination.dest cMsg7 ∉
      (pre_dispatch cNode7 cMsg7).events :=
  ⟨by decide, by decide, by decide, by decide⟩

/-- Claim C7 witness: a PutData message on which the amended theorem yields
both the step-4 forward and the step-7 dispatch. -/
theorem forward_and_dispatch_guarded_witness :
    getFilter wMsg2.message_header ∉ baseNode.filter ∧
    address_in_close_group_range baseNode.routing_table baseNode.own_id
        wMsg2.message_header.destination.dest = true ∧
    (∃ evts, pre_dispatch baseNode wMsg2 = .dispatch (addFilter baseNode wMsg2.message_header) evts ∧
       Event.swarmSend wMsg2.message_header.destination.dest wMsg2 ∈ evts ∧
       message_received baseNode wMsg2 =
         ((dispatch_message_type (addFilter baseNode wMsg2.message_header) wMsg2).1,
          (dispatch_message_type (addFilter baseNode wMsg2.message_header) wMsg2).2.1,
          evts ++ (dispatch_message_type (addFilter baseNode wMsg2.message_header) wMsg2).2.2)) :=
  ⟨by decide, by decide,
   forward_and_dispatch_guarded baseNode wMsg2 (by decide)
     (fun h => nomatch h) (fun h => nomatch h)
     (fun r hr => nomatch hr) (by decide)⟩

/-- Claim C8: the close-group membership predicate accepts every address when
the routing table holds fewer than group-size entries; and when the
destination is not within close-group range, the pre-dispatch pipeline never
falls through to per-type dispatch. -/
theorem close_group_gate :
    (∀ (rt : RoutingTableModel) (own addr : NameType),
        rt.size < rt.group_size → address_in_close_group_range rt own addr = true) ∧
    (∀ (n0 : Node) (msg : RoutingMessage),
        address_in_close_group_range n0.routing_table n0.own_id
            msg.message_header.destination.dest = false →
        (pre_dispatch n0 msg).isDispatch = false) := by
  constructor
  · intro rt own addr h
    unfold address_in_close_group_range
    rw [if_pos h]
  · intro n0 msg h
    exact pd_not_dispatch_range n0 msg h

/-- Claim C8 witness: the under-full table accepts an arbitrary address; a
full table with group size 1 rejects address 5, and dispatch is not
reached. -/
theorem close_group_gate_witness :
    (rtUnderFull.size < rtUnderFull.group_size ∧
     address_in_close_group_range rtUnderFull 0 7 = true) ∧
    (address_in_close_group_range cNode8.routing_table cNode8.own_id
        cMsg8.message_header.destination.dest = false ∧
     (pre_dispatch cNode8 cMsg8).isDispatch = false) :=
  ⟨⟨by decide, close_group_gate.1 rtUnderFull 0 7 (by decide)⟩,
   ⟨by decide, close_group_gate.2 cNode8 cMsg8 (by decide)⟩⟩

end Routing
